import Mathlib

/-!
Shallow embedding of the intelligent bill-allocation engine
(src/src/models.py, scoring.py, constraints.py, splitter.py, allocator.py).

Conventions of the embedding:
* All monetary quantities and scores are rationals (the source uses
  fixed-precision decimals precisely so that sums, ratios and comparisons
  are exact; ℚ gives the same exact arithmetic).
* Python object mutation of tickets is rendered by explicit state passing:
  `allocate` returns the result together with the updated ticket pool, and
  the in-place decrement of `available_amount` becomes a map over the pool
  keyed by ticket id (pool tickets are distinct objects in the source, one
  per id).
* The engine-local PRNG is rendered by a rational `randomness` in the
  scoring context, the value of a draw in [0, 1); at most one draw happens
  per scored dimension.
* Warning strings keep the source's literal text, with the interpolated
  numeric values elided (they carry no decision logic).
* Fields used only for reporting (execution time, score breakdown record,
  the three distribution records) are outside every claim and are omitted
  from the embedded result record.
-/

/-- models.AmountLabel -/
inductive AmountLabel where
  | LARGE
  | MEDIUM
  | SMALL
deriving DecidableEq, Repr

/-- The three labels in the source enum's iteration order. -/
def AmountLabel.all : List AmountLabel :=
  [AmountLabel.LARGE, AmountLabel.MEDIUM, AmountLabel.SMALL]

/-- models.MaturityStrategy -/
inductive MaturityStrategy where
  | FAR_FIRST
  | NEAR_FIRST
deriving DecidableEq, Repr

/-- models.AcceptorClassStrategy -/
inductive AcceptorClassStrategy where
  | GOOD_FIRST
  | BAD_FIRST
deriving DecidableEq, Repr

/-- models.AmountStrategy -/
inductive AmountStrategy where
  | LARGE_FIRST
  | SMALL_FIRST
  | RANDOM
  | LESS_THAN_ORDER
  | GREATER_THAN_ORDER
  | OPTIMIZE_INVENTORY
deriving DecidableEq, Repr

/-- models.AmountSubStrategy -/
inductive AmountSubStrategy where
  | RANDOM_WITHIN
  | SORTED
deriving DecidableEq, Repr

/-- models.OrganizationStrategy -/
inductive OrganizationStrategy where
  | SAME_ORG
  | DIFF_ORG
deriving DecidableEq, Repr

/-- models.SplitStrategy -/
inductive SplitStrategy where
  | BY_MATURITY
  | BY_ACCEPTOR_CLASS
  | BY_AMOUNT_LARGE
  | BY_AMOUNT_CLOSE
deriving DecidableEq, Repr

/-- models.Ticket (the classifier assigns amount_label before the engine runs;
here it is simply a field). -/
structure Ticket where
  id : String
  amount : ℚ
  maturity_days : ℤ
  acceptor_class : ℤ
  amount_label : AmountLabel
  organization : String
  available_amount : ℚ
deriving DecidableEq, Repr

/-- models.PaymentOrder -/
structure PaymentOrder where
  id : String
  amount : ℚ
  organization : String
  priority : ℤ
deriving DecidableEq, Repr

/-- models.AmountLabelConfig. The three half-open classifier ranges are used
only by utils.classify_ticket_amount, outside the engine and every claim, so
only the target ratios appear here. -/
structure AmountLabelConfig where
  large_ratio : ℚ
  medium_ratio : ℚ
  small_ratio : ℚ
deriving DecidableEq, Repr

/-- models.WeightConfig (force_penetrate is never read by the engine and is
omitted). -/
structure WeightConfig where
  w_maturity : ℚ
  w_acceptor : ℚ
  w_amount : ℚ
  w_organization : ℚ
  maturity_strategy : MaturityStrategy
  maturity_threshold : ℤ
  acceptor_strategy : AcceptorClassStrategy
  acceptor_class_count : ℤ
  amount_strategy : AmountStrategy
  amount_sub_strategy : Option AmountSubStrategy
  organization_strategy : OrganizationStrategy
deriving DecidableEq, Repr

/-- models.SplitConfig -/
structure SplitConfig where
  allow_split : Bool
  tail_diff_abs : ℚ
  tail_diff_ratio : ℚ
  min_remain : ℚ
  min_use : ℚ
  min_ratio : ℚ
  split_strategy : SplitStrategy
  split_condition_unlimited : Bool
deriving DecidableEq, Repr

/-- models.ConstraintConfig -/
structure ConstraintConfig where
  max_ticket_count : ℕ
  small_ticket_limited : Bool
  small_ticket_80pct_amount_coverage : ℚ
  allowed_maturity_days : Option (ℤ × ℤ)
  allowed_amount_range : Option (ℚ × ℚ)
  allowed_acceptor_classes : Option (List ℤ)
deriving DecidableEq, Repr

/-- models.AllocationConfig -/
structure AllocationConfig where
  amount_label_config : AmountLabelConfig
  weight_config : WeightConfig
  split_config : SplitConfig
  constraint_config : ConstraintConfig
  equal_amount_first : Bool
  equal_amount_threshold : ℚ
deriving DecidableEq, Repr

/-- scoring.ScoringContext. `amount_range_by_label` is the source's dict that
holds an entry only for labels present in the pool; `inventory_distribution`
is the source's dict read through .get(label, 0), so a total function;
`randomness` is the value of a PRNG draw. -/
structure ScoringContext where
  maturity_range : ℤ × ℤ
  amount_range_by_label : AmountLabel → Option (ℚ × ℚ)
  inventory_distribution : AmountLabel → ℚ
  randomness : ℚ

/-- models.TicketScore -/
structure TicketScore where
  ticket : Ticket
  total_score : ℚ
  maturity_score : ℚ
  acceptor_score : ℚ
  amount_score : ℚ
  organization_score : ℚ
deriving DecidableEq, Repr

/-- models.TicketUsage -/
structure TicketUsage where
  ticket : Ticket
  used_amount : ℚ
  split_ratio : ℚ
  score : TicketScore
  order_index : ℕ
deriving DecidableEq, Repr

/-- models.AllocationResult (reporting-only fields omitted, see the header
comment). -/
structure AllocationResult where
  order_id : String
  target_amount : ℚ
  selected_tickets : List TicketUsage
  total_amount : ℚ
  bias_amount : ℚ
  wire_transfer_diff : ℚ
  ticket_count : ℕ
  split_count : ℕ
  split_amount : ℚ
  remain_amount : ℚ
  total_score : ℚ
  constraints_met : Bool
  warnings : List String
deriving DecidableEq, Repr

/-- scoring._score_maturity -/
def score_maturity (ticket : Ticket) (weight : WeightConfig) (ctx : ScoringContext) : ℚ :=
  let d_min := ctx.maturity_range.1
  let d_max := ctx.maturity_range.2
  let threshold := weight.maturity_threshold
  let days := ticket.maturity_days
  if d_max = d_min then 1
  else
    match weight.maturity_strategy with
    | MaturityStrategy.FAR_FIRST =>
      if days ≥ threshold then
        if d_max = threshold then 1
        else
          let normalized : ℚ := ((days - threshold : ℤ) : ℚ) / ((d_max - threshold : ℤ) : ℚ)
          7/10 + 3/10 * min 1 normalized
      else
        if threshold = d_min then 0
        else
          let normalized : ℚ := ((days - d_min : ℤ) : ℚ) / ((threshold - d_min : ℤ) : ℚ)
          7/10 * max 0 normalized
    | MaturityStrategy.NEAR_FIRST =>
      if days ≤ threshold then
        if threshold = d_min then 1
        else
          let normalized : ℚ := ((threshold - days : ℤ) : ℚ) / ((threshold - d_min : ℤ) : ℚ)
          7/10 + 3/10 * min 1 normalized
      else
        if d_max = threshold then 0
        else
          let normalized : ℚ := ((d_max - days : ℤ) : ℚ) / ((d_max - threshold : ℤ) : ℚ)
          7/10 * max 0 normalized

/-- scoring._score_acceptor -/
def score_acceptor (ticket : Ticket) (weight : WeightConfig) : ℚ :=
  let total := max weight.acceptor_class_count 1
  let acceptor_class := max 1 (min ticket.acceptor_class total)
  match weight.acceptor_strategy with
  | AcceptorClassStrategy.GOOD_FIRST => ((total + 1 - acceptor_class : ℤ) : ℚ) / ((total : ℤ) : ℚ)
  | AcceptorClassStrategy.BAD_FIRST => ((acceptor_class : ℤ) : ℚ) / ((total : ℤ) : ℚ)

/-- scoring._score_large_first -/
def score_large_first (ticket : Ticket) (config : AllocationConfig) (ctx : ScoringContext) : ℚ :=
  let sub := config.weight_config.amount_sub_strategy
  match ticket.amount_label with
  | AmountLabel.LARGE =>
    if sub = some AmountSubStrategy.SORTED then
      let range := (ctx.amount_range_by_label AmountLabel.LARGE).getD (ticket.amount, ticket.amount)
      if range.2 > range.1 then
        7/10 + 3/10 * ((ticket.amount - range.1) / (range.2 - range.1))
      else 85/100
    else 7/10 + ctx.randomness * (3/10)
  | AmountLabel.MEDIUM => 5/10
  | AmountLabel.SMALL => 2/10

/-- scoring._score_small_first -/
def score_small_first (ticket : Ticket) (config : AllocationConfig) (ctx : ScoringContext) : ℚ :=
  let sub := config.weight_config.amount_sub_strategy
  match ticket.amount_label with
  | AmountLabel.SMALL =>
    if sub = some AmountSubStrategy.SORTED then
      let range := (ctx.amount_range_by_label AmountLabel.SMALL).getD (ticket.amount, ticket.amount)
      if range.2 > range.1 then
        7/10 + 3/10 * ((range.2 - ticket.amount) / (range.2 - range.1))
      else 85/100
    else 7/10 + ctx.randomness * (3/10)
  | AmountLabel.MEDIUM => 5/10
  | AmountLabel.LARGE => 2/10

/-- The expected (target) inventory share of a label, from the
amount-label configuration (the dict literal at the top of
scoring._score_optimize_inventory). -/
def expected_ratio (config : AllocationConfig) (label : AmountLabel) : ℚ :=
  match label with
  | AmountLabel.LARGE => config.amount_label_config.large_ratio
  | AmountLabel.MEDIUM => config.amount_label_config.medium_ratio
  | AmountLabel.SMALL => config.amount_label_config.small_ratio

/-- The per-label raw weight of scoring._score_optimize_inventory. -/
def raw_weight (config : AllocationConfig) (ctx : ScoringContext) (label : AmountLabel) : ℚ :=
  let current_ratio := ctx.inventory_distribution label
  let expected := expected_ratio config label
  if current_ratio > expected then 2 * current_ratio - expected else 0

/-- scoring._score_optimize_inventory -/
def score_optimize_inventory (ticket : Ticket) (config : AllocationConfig) (ctx : ScoringContext) : ℚ :=
  let total_weight :=
    raw_weight config ctx AmountLabel.LARGE
      + raw_weight config ctx AmountLabel.MEDIUM
      + raw_weight config ctx AmountLabel.SMALL
  if total_weight = 0 then 1/3
  else raw_weight config ctx ticket.amount_label / total_weight

/-- scoring._score_amount (the trailing `return 0.5` of the source is dead:
the match on the strategy enum is exhaustive). -/
def score_amount (ticket : Ticket) (order : PaymentOrder) (config : AllocationConfig)
    (ctx : ScoringContext) : ℚ :=
  match config.weight_config.amount_strategy with
  | AmountStrategy.LARGE_FIRST => score_large_first ticket config ctx
  | AmountStrategy.SMALL_FIRST => score_small_first ticket config ctx
  | AmountStrategy.RANDOM => ctx.randomness
  | AmountStrategy.LESS_THAN_ORDER => if ticket.amount ≤ order.amount then 1 else 5/10
  | AmountStrategy.GREATER_THAN_ORDER => if ticket.amount ≥ order.amount then 1 else 2/10
  | AmountStrategy.OPTIMIZE_INVENTORY => score_optimize_inventory ticket config ctx

/-- scoring._score_organization -/
def score_organization (ticket : Ticket) (order : PaymentOrder) (weight : WeightConfig) : ℚ :=
  match weight.organization_strategy with
  | OrganizationStrategy.SAME_ORG => if ticket.organization = order.organization then 1 else 0
  | OrganizationStrategy.DIFF_ORG => if ticket.organization = order.organization then 0 else 1

/-- scoring.score_ticket -/
def score_ticket (ticket : Ticket) (order : PaymentOrder) (config : AllocationConfig)
    (ctx : ScoringContext) : TicketScore :=
  let weight := config.weight_config
  let maturity_score := score_maturity ticket weight ctx
  let acceptor_score := score_acceptor ticket weight
  let amount_score := score_amount ticket order config ctx
  let organization_score := score_organization ticket order weight
  { ticket := ticket
    total_score :=
      weight.w_maturity * maturity_score
        + weight.w_acceptor * acceptor_score
        + weight.w_amount * amount_score
        + weight.w_organization * organization_score
    maturity_score := maturity_score
    acceptor_score := acceptor_score
    amount_score := amount_score
    organization_score := organization_score }

/-- constraints.validate_ticket_filter -/
def validate_ticket_filter (ticket : Ticket) (config : AllocationConfig) : Bool :=
  let c := config.constraint_config
  (match c.allowed_maturity_days with
   | none => true
   | some range => decide (range.1 ≤ ticket.maturity_days ∧ ticket.maturity_days ≤ range.2))
  && (match c.allowed_amount_range with
      | none => true
      | some range => decide (range.1 ≤ ticket.amount ∧ ticket.amount ≤ range.2))
  && (match c.allowed_acceptor_classes with
      | none => true
      | some classes => classes.contains ticket.acceptor_class)

/-- constraints.validate_ticket_count -/
def validate_ticket_count (selected : List Ticket) (config : AllocationConfig) : Bool :=
  decide (selected.length ≤ config.constraint_config.max_ticket_count)

/-- constraints.validate_split_constraints. The source returns (ok, message);
every caller discards the message, so the embedding keeps only the Bool. -/
def validate_split_constraints (ticket_amount : ℚ) (split_ratio : ℚ)
    (config : AllocationConfig) : Bool :=
  let sc := config.split_config
  let used := split_ratio * ticket_amount
  let remain := (1 - split_ratio) * ticket_amount
  if used < sc.min_use then false
  else if remain < sc.min_remain then false
  else if split_ratio < sc.min_ratio then false
  else true

/-- Stable insertion (ascending by key) used to render Python's stable
`sorted(..., key=...)`. -/
def insortAscBy (key : α → ℚ) (x : α) : List α → List α
  | [] => [x]
  | y :: ys => if key x < key y then x :: y :: ys else y :: insortAscBy key x ys

/-- Stable ascending sort by a rational key (the semantics of Python's
`sorted(l, key=k)`). -/
def sortAscBy (key : α → ℚ) : List α → List α
  | [] => []
  | x :: xs => insortAscBy key x (sortAscBy key xs)

/-- Stable insertion (descending by key). -/
def insortDescBy (key : α → ℚ) (x : α) : List α → List α
  | [] => [x]
  | y :: ys => if key x > key y then x :: y :: ys else y :: insortDescBy key x ys

/-- Stable descending sort by a rational key (the semantics of Python's
`l.sort(key=k, reverse=True)`). -/
def sortDescBy (key : α → ℚ) : List α → List α
  | [] => []
  | x :: xs => insortDescBy key x (sortDescBy key xs)

/-- The earliest element with the maximal key, the semantics of Python's
`max(x :: xs, key=f)` and of a stable descending sort followed by `[0]`. -/
def pickBestBy (f : α → ℚ) (x : α) (xs : List α) : α :=
  xs.foldl (fun b y => if f y > f b then y else b) x

/-- The earliest element with the minimal key, the semantics of Python's
`min(x :: xs, key=f)`. -/
def pickLeastBy (f : α → ℚ) (x : α) (xs : List α) : α :=
  xs.foldl (fun b y => if f y < f b then y else b) x

/-- constraints.validate_small_ticket_constraint. `4/5` is the source's 0.8
literal; `Int.toNat ⌈·⌉` is math.ceil on a nonnegative value. -/
def validate_small_ticket_constraint (selected_tickets : List (Ticket × ℚ))
    (order_amount : ℚ) (config : AllocationConfig) : Bool × String :=
  if config.constraint_config.small_ticket_limited = false then (true, "")
  else
    let small := selected_tickets.filter
      (fun p => decide (p.1.amount_label = AmountLabel.SMALL))
    if small.isEmpty then (true, "")
    else
      let small_sorted := sortAscBy (fun p => p.1.amount) small
      let idx_80 := max 1 (Int.toNat ⌈(small_sorted.length : ℚ) * (4/5)⌉)
      let top_80_amount := ((small_sorted.take idx_80).map (fun p => p.2)).sum
      let required := order_amount * config.constraint_config.small_ticket_80pct_amount_coverage
      if top_80_amount < required then (false, "小额票前80%累计金额未达到要求")
      else (true, "")

/-- splitter._calculate_tail_diff -/
def calculate_tail_diff (order_amount : ℚ) (config : AllocationConfig) : ℚ :=
  max config.split_config.tail_diff_abs (order_amount * config.split_config.tail_diff_ratio)

/-- The running sum `sum(tu.used_amount for tu in selected)`. -/
def usedSum (selected : List TicketUsage) : ℚ :=
  (selected.map (fun tu => tu.used_amount)).sum

/-- splitter._select_split_ticket. A stable descending sort followed by
taking the head returns the earliest maximum, hence pickBestBy. -/
def select_split_ticket (tickets : List Ticket) (config : AllocationConfig)
    (ctx : ScoringContext) (order : PaymentOrder) (bias : ℚ) : Option Ticket :=
  match tickets with
  | [] => none
  | x :: xs =>
    match config.split_config.split_strategy with
    | SplitStrategy.BY_MATURITY =>
      some (pickBestBy (fun t => (score_ticket t order config ctx).maturity_score) x xs)
    | SplitStrategy.BY_ACCEPTOR_CLASS =>
      some (pickBestBy (fun t => (score_ticket t order config ctx).acceptor_score) x xs)
    | SplitStrategy.BY_AMOUNT_LARGE =>
      some (pickBestBy (fun t => t.amount) x xs)
    | SplitStrategy.BY_AMOUNT_CLOSE =>
      some (pickLeastBy (fun t => |t.amount - bias|) x xs)

/-- splitter._add_split_ticket -/
def add_split_ticket (selected : List TicketUsage) (remaining : List Ticket) (bias : ℚ)
    (config : AllocationConfig) (ctx : ScoringContext) (order : PaymentOrder) :
    Option (List TicketUsage × String) :=
  let avail_ge := remaining.filter (fun t => decide (t.available_amount ≥ bias))
  let available := if avail_ge.isEmpty
    then remaining.filter (fun t => decide (t.available_amount > 0))
    else avail_ge
  if available.isEmpty then none
  else
    match select_split_ticket available config ctx order bias with
    | none => none
    | some candidate =>
      let usable_amount := min bias candidate.available_amount
      let split_ratio := usable_amount / candidate.amount
      if split_ratio ≤ 0 then none
      else
        if validate_split_constraints candidate.amount split_ratio config then
          let score_obj := score_ticket candidate order config ctx
          some (selected ++ [{ ticket := candidate, used_amount := usable_amount,
                               split_ratio := split_ratio, score := score_obj,
                               order_index := selected.length }], "新增拆票")
        else
          let split_ratio2 := max config.split_config.min_ratio split_ratio
          if validate_split_constraints candidate.amount split_ratio2 config then
            let usable_amount2 := split_ratio2 * candidate.amount
            let score_obj := score_ticket candidate order config ctx
            some (selected ++ [{ ticket := candidate, used_amount := usable_amount2,
                                 split_ratio := split_ratio2, score := score_obj,
                                 order_index := selected.length }], "新增拆票")
          else none

/-- The in-place mutation loop at the end of splitter._split_from_selected:
walk `selected`, rewrite the first usage whose ticket id matches, fail if its
new ratio is negative or violates the split constraints. -/
def split_update (bias : ℚ) (config : AllocationConfig) (target : Ticket) :
    List TicketUsage → Option (List TicketUsage)
  | [] => none
  | tu :: rest =>
    if tu.ticket.id = target.id then
      let new_used := tu.used_amount - bias
      let new_ratio := new_used / tu.ticket.amount
      if new_ratio < 0 then none
      else if validate_split_constraints tu.ticket.amount new_ratio config then
        some ({ tu with used_amount := new_used, split_ratio := new_ratio } :: rest)
      else none
    else
      match split_update bias config target rest with
      | none => none
      | some rest2 => some (tu :: rest2)

/-- splitter._split_from_selected -/
def split_from_selected (selected : List TicketUsage) (bias : ℚ)
    (config : AllocationConfig) (ctx : ScoringContext) (order : PaymentOrder) :
    Option (List TicketUsage × String) :=
  if selected.isEmpty then none
  else
    let cand_enough := selected.filter (fun tu => decide (tu.used_amount ≥ bias))
    let candidates0 := if cand_enough.isEmpty then selected else cand_enough
    let strict := candidates0.filter
      (fun tu => decide (tu.split_ratio = 1 ∧ tu.used_amount ≥ bias))
    let candidates := if strict.isEmpty then candidates0 else strict
    match select_split_ticket (candidates.map (fun tu => tu.ticket)) config ctx order bias with
    | none => none
    | some target =>
      match split_update bias config target selected with
      | none => none
      | some selected2 => some (selected2, "调整票据使用金额")

/-- The body of splitter.adjust_with_split's bounded while loop, with the
iteration budget (5 in the source) as explicit fuel. -/
def adjust_loop (remaining : List Ticket) (order : PaymentOrder)
    (config : AllocationConfig) (ctx : ScoringContext) (tail_diff : ℚ) :
    ℕ → List TicketUsage → List String → List TicketUsage × List String
  | 0, selected, warnings => (selected, warnings)
  | fuel + 1, selected, warnings =>
    let bias := order.amount - usedSum selected
    if 0 < bias ∧ bias ≤ tail_diff ∧ config.split_config.split_condition_unlimited = false then
      (selected, warnings ++ ["差额在尾差阈值内，采用电汇补齐"])
    else if |bias| ≤ tail_diff then
      (selected, warnings)
    else if bias > tail_diff then
      if config.split_config.allow_split = false then
        (selected, warnings ++ ["尾差超阈值且未允许拆票"])
      else
        match add_split_ticket selected remaining bias config ctx order with
        | some (selected2, msg) =>
          adjust_loop remaining order config ctx tail_diff fuel selected2
            (warnings ++ ["补票拆分: " ++ msg])
        | none => (selected, warnings ++ ["无法补票"])
    else
      if config.split_config.allow_split = false then
        (selected, warnings ++ ["尾差超阈值且未允许拆票"])
      else
        match split_from_selected selected |bias| config ctx order with
        | some (selected2, msg) =>
          adjust_loop remaining order config ctx tail_diff fuel selected2
            (warnings ++ ["超额拆分: " ++ msg])
        | none => (selected, warnings ++ ["无法从组合中拆票"])

/-- splitter.adjust_with_split -/
def adjust_with_split (selected : List TicketUsage) (remaining_tickets : List Ticket)
    (order : PaymentOrder) (config : AllocationConfig) (ctx : ScoringContext) :
    List TicketUsage × List String :=
  adjust_loop remaining_tickets order config ctx (calculate_tail_diff order.amount config)
    5 selected []

/-- Minimum of a mapped nonempty list, head seeded (the semantics of Python's
min over a nonempty generator). -/
def foldMin [LinearOrder β] (f : α → β) (x : α) (xs : List α) : β :=
  xs.foldl (fun b y => min b (f y)) (f x)

/-- Maximum of a mapped nonempty list, head seeded. -/
def foldMax [LinearOrder β] (f : α → β) (x : α) (xs : List α) : β :=
  xs.foldl (fun b y => max b (f y)) (f x)

/-- The face amounts of the tickets carrying a given label. -/
def label_amounts (tickets : List Ticket) (label : AmountLabel) : List ℚ :=
  (tickets.filter (fun t => decide (t.amount_label = label))).map (fun t => t.amount)

/-- allocator.AllocationEngine._build_context. `rand` is the engine PRNG's
draw value (ScoringContext.randomness). -/
def build_context (rand : ℚ) (tickets : List Ticket) : ScoringContext :=
  match tickets with
  | [] =>
    { maturity_range := (0, 365)
      amount_range_by_label := fun label =>
        match label with
        | AmountLabel.LARGE => some (1000000, 10000000)
        | AmountLabel.MEDIUM => some (100000, 1000000)
        | AmountLabel.SMALL => some (10000, 100000)
      inventory_distribution := fun label =>
        match label with
        | AmountLabel.LARGE => 33/100
        | AmountLabel.MEDIUM => 33/100
        | AmountLabel.SMALL => 34/100
      randomness := rand }
  | t0 :: rest =>
    let tickets := t0 :: rest
    let total_amount := (tickets.map (fun t => t.amount)).sum
    { maturity_range :=
        (foldMin (fun t => t.maturity_days) t0 rest, foldMax (fun t => t.maturity_days) t0 rest)
      amount_range_by_label := fun label =>
        match label_amounts tickets label with
        | [] => none
        | a :: more => some (more.foldl min a, more.foldl max a)
      inventory_distribution := fun label =>
        if total_amount > 0 then (label_amounts tickets label).sum / total_amount
        else 1 / 3
      randomness := rand }

/-- The bills within equal_amount_threshold of the order's amount among the
filtered pool (the `equal_tickets` list of _try_equal_match). -/
def equal_candidates (config : AllocationConfig) (order : PaymentOrder)
    (tickets : List Ticket) : List Ticket :=
  tickets.filter (fun t => decide (|t.amount - order.amount| ≤ config.equal_amount_threshold))

/-- allocator.AllocationEngine._try_equal_match. The source decrements the
chosen ticket's available_amount on the shared object before building the
usage record, so the usage's ticket snapshot carries the decremented value
and the pool is updated at that id. -/
def try_equal_match (config : AllocationConfig) (order : PaymentOrder)
    (tickets : List Ticket) (ctx : ScoringContext) (pool : List Ticket) :
    Option (AllocationResult × List Ticket) :=
  match (equal_candidates config order tickets).map
      (fun t => score_ticket t order config ctx) with
  | [] => none
  | s0 :: srest =>
    let best := pickBestBy (fun s => s.total_score) s0 srest
    let bt := { best.ticket with
                available_amount := best.ticket.available_amount - best.ticket.amount }
    let pool2 := pool.map (fun t => if t.id = best.ticket.id then bt else t)
    let tu : TicketUsage :=
      { ticket := bt, used_amount := best.ticket.amount, split_ratio := 1,
        score := best, order_index := 0 }
    some
      ({ order_id := order.id
         target_amount := order.amount
         selected_tickets := [tu]
         total_amount := tu.used_amount
         bias_amount := order.amount - tu.used_amount
         wire_transfer_diff := 0
         ticket_count := 1
         split_count := 0
         split_amount := 0
         remain_amount := 0
         total_score := best.total_score
         constraints_met := true
         warnings := ["等额配票成功"] }, pool2)

/-- The greedy loop state of allocator._build_combination: selection so far,
ids already used, and the accumulated used amount. -/
structure BuildState where
  selected : List TicketUsage
  used_ids : List String
  accumulated : ℚ
deriving Repr

/-- One candidate's (to_use, split_ratio) in allocator._build_combination,
including the on-demand split attempt. -/
def combination_use (config : AllocationConfig)
    (ticket : Ticket) (remaining_need : ℚ) : ℚ × ℚ :=
  let available_amount := min ticket.available_amount ticket.amount
  let dflt := (available_amount, available_amount / ticket.amount)
  if available_amount > remaining_need ∧ config.split_config.allow_split = true
      ∧ remaining_need > 0 then
    let desired_ratio := remaining_need / ticket.amount
    if desired_ratio ≤ 1 then
      if validate_split_constraints ticket.amount desired_ratio config then
        let to_use := min ticket.available_amount (desired_ratio * ticket.amount)
        (to_use, to_use / ticket.amount)
      else
        let adjusted_ratio := max config.split_config.min_ratio (min 1 desired_ratio)
        if validate_split_constraints ticket.amount adjusted_ratio config then
          let to_use := min ticket.available_amount (adjusted_ratio * ticket.amount)
          (to_use, to_use / ticket.amount)
        else dflt
    else dflt
  else dflt

/-- The loop of allocator._build_combination over the score-sorted list. -/
def build_combination_go (order : PaymentOrder) (config : AllocationConfig) :
    List TicketScore → BuildState → BuildState
  | [], st => st
  | ts :: rest, st =>
    if st.selected.length ≥ config.constraint_config.max_ticket_count then st
    else if st.used_ids.contains ts.ticket.id then build_combination_go order config rest st
    else if ts.ticket.available_amount ≤ 0 then build_combination_go order config rest st
    else
      let remaining_need := order.amount - st.accumulated
      if remaining_need ≤ 0 then st
      else
        let use := combination_use config ts.ticket remaining_need
        let tu : TicketUsage :=
          { ticket := ts.ticket, used_amount := use.1, split_ratio := use.2,
            score := ts, order_index := st.selected.length }
        let st2 : BuildState :=
          { selected := st.selected ++ [tu]
            used_ids := st.used_ids ++ [ts.ticket.id]
            accumulated := st.accumulated + use.1 }
        if st2.accumulated ≥ order.amount then st2
        else build_combination_go order config rest st2

/-- allocator.AllocationEngine._build_combination -/
def build_combination (order : PaymentOrder) (config : AllocationConfig)
    (scored_tickets : List TicketScore) : List TicketUsage × List Ticket :=
  let st := build_combination_go order config scored_tickets
    { selected := [], used_ids := [], accumulated := 0 }
  (st.selected,
   (scored_tickets.filter (fun ts => !(st.used_ids.contains ts.ticket.id))).map
     (fun ts => ts.ticket))

/-- allocator.AllocationEngine._validate_constraints -/
def validate_constraints (config : AllocationConfig) (selected : List TicketUsage)
    (order_amount : ℚ) : Bool × String :=
  if validate_ticket_count (selected.map (fun tu => tu.ticket)) config = false then
    (false, "票据张数超过限制")
  else
    let small := validate_small_ticket_constraint
      (selected.map (fun tu => (tu.ticket, tu.used_amount))) order_amount config
    if small.1 = false then (false, small.2)
    else (true, "")

/-- allocator.AllocationEngine._create_empty_result (the incoming warnings
list is empty at its only call site, so the appended list is exactly the
"no available bills" warning). -/
def create_empty_result (order : PaymentOrder) (warnings : List String) : AllocationResult :=
  { order_id := order.id
    target_amount := order.amount
    selected_tickets := []
    total_amount := 0
    bias_amount := order.amount
    wire_transfer_diff := 0
    ticket_count := 0
    split_count := 0
    split_amount := 0
    remain_amount := 0
    total_score := 0
    constraints_met := false
    warnings := warnings ++ ["无可用票据"] }

/-- The sum of used amounts charged to a given ticket id by the selection
(one decrement per usage in the source's mutation loop). -/
def used_on (selected : List TicketUsage) (tid : String) : ℚ :=
  ((selected.filter (fun tu => decide (tu.ticket.id = tid))).map
    (fun tu => tu.used_amount)).sum

/-- Step 8 of allocate: decrement each selected ticket's available_amount by
its used amount, rendered on the pool list keyed by id. -/
def apply_usage (selected : List TicketUsage) (pool : List Ticket) : List Ticket :=
  pool.map (fun t => { t with available_amount := t.available_amount - used_on selected t.id })

/-- allocator.AllocationEngine._build_result (reporting-only fields omitted,
see the header comment; all_tickets and filtered_tickets feed only those). -/
def build_result (config : AllocationConfig) (order : PaymentOrder)
    (selected : List TicketUsage) (constraints_ok : Bool) (warnings : List String) :
    AllocationResult :=
  let total_used := usedSum selected
  let bias := order.amount - total_used
  let split_usages := selected.filter (fun tu => decide (tu.split_ratio < 1))
  let tail_diff_threshold := max config.split_config.tail_diff_abs
    (order.amount * config.split_config.tail_diff_ratio)
  let wire_transfer_diff := if 0 < bias ∧ bias ≤ tail_diff_threshold then bias else 0
  { order_id := order.id
    target_amount := order.amount
    selected_tickets := selected
    total_amount := total_used
    bias_amount := bias
    wire_transfer_diff := wire_transfer_diff
    ticket_count := selected.length
    split_count := split_usages.length
    split_amount := (split_usages.map (fun tu => tu.used_amount)).sum
    remain_amount := (split_usages.map (fun tu => tu.ticket.amount - tu.used_amount)).sum
    total_score := (selected.map (fun tu => tu.score.total_score * tu.split_ratio)).sum
    constraints_met := constraints_ok
    warnings := warnings }

/-- Steps 4-10 of allocator.AllocationEngine.allocate (score, sort, combine,
split-adjust, mutate the pool, validate, build the result). -/
def allocate_main (config : AllocationConfig) (order : PaymentOrder)
    (pool filtered : List Ticket) (ctx : ScoringContext) :
    AllocationResult × List Ticket :=
  let scored := filtered.map (fun t => score_ticket t order config ctx)
  let sorted := sortDescBy (fun ts => ts.total_score) scored
  let combo := build_combination order config sorted
  let adjusted := adjust_with_split combo.1 combo.2 order config ctx
  let selected := adjusted.1
  let pool2 := apply_usage selected pool
  let constraints := validate_constraints config selected order.amount
  let warnings := adjusted.2 ++ (if constraints.1 then [] else [constraints.2])
  (build_result config order selected constraints.1 warnings, pool2)

/-- The pool pre-filter of allocate's step 1. -/
def pool_filter (config : AllocationConfig) (pool : List Ticket) : List Ticket :=
  pool.filter (fun t => validate_ticket_filter t config && decide (t.available_amount > 0))

/-- allocator.AllocationEngine.allocate; `rand` is the engine PRNG's draw
value. Returns the result together with the pool after mutation. -/
def allocate (config : AllocationConfig) (rand : ℚ) (order : PaymentOrder)
    (pool : List Ticket) : AllocationResult × List Ticket :=
  match pool_filter config pool with
  | [] => (create_empty_result order [], pool)
  | f0 :: frest =>
    let filtered := f0 :: frest
    let ctx := build_context rand filtered
    if config.equal_amount_first then
      match try_equal_match config order filtered ctx pool with
      | some res => res
      | none => allocate_main config order pool filtered ctx
    else allocate_main config order pool filtered ctx

/-!
Definitions written from the claim's words (for the refinement-style claim
C4 about the OPTIMIZE_INVENTORY amount score), to be compared with the
composition of the embedded code paths. -/

/-- Claim C4's current share of a label: the face-amount share
Σ amount_label / Σ amount_all of the given (post-filter) pool. -/
def specCurrentShare (tickets : List Ticket) (label : AmountLabel) : ℚ :=
  (label_amounts tickets label).sum / (tickets.map (fun t => t.amount)).sum

/-- Claim C4's raw weight: 2·current − expected when current > expected,
else 0. -/
def specInvWeight (config : AllocationConfig) (tickets : List Ticket)
    (label : AmountLabel) : ℚ :=
  if specCurrentShare tickets label > expected_ratio config label then
    2 * specCurrentShare tickets label - expected_ratio config label
  else 0

/-- Claim C4's amount score of a bill with the given label:
w_label / Σ w, and 1/|labels| = 1/3 when Σ w = 0. -/
def specInvScore (config : AllocationConfig) (tickets : List Ticket)
    (label : AmountLabel) : ℚ :=
  let s := specInvWeight config tickets AmountLabel.LARGE
    + specInvWeight config tickets AmountLabel.MEDIUM
    + specInvWeight config tickets AmountLabel.SMALL
  if s = 0 then 1/3 else specInvWeight config tickets label / s

/-!
Concrete instances used by the counterexamples, the code_bug evaluation and
the witnesses. Weight/split/constraint values mirror the source defaults
except where a scenario needs otherwise. -/

/-- The source's default weight configuration (models.WeightConfig). -/
def wcfgBase : WeightConfig :=
  { w_maturity := 1/4, w_acceptor := 1/4, w_amount := 1/4, w_organization := 1/4
    maturity_strategy := MaturityStrategy.FAR_FIRST, maturity_threshold := 90
    acceptor_strategy := AcceptorClassStrategy.BAD_FIRST, acceptor_class_count := 5
    amount_strategy := AmountStrategy.OPTIMIZE_INVENTORY, amount_sub_strategy := none
    organization_strategy := OrganizationStrategy.SAME_ORG }

/-- The source's default split configuration (models.SplitConfig). -/
def scfgBase : SplitConfig :=
  { allow_split := true, tail_diff_abs := 10000, tail_diff_ratio := 3/10
    min_remain := 50000, min_use := 50000, min_ratio := 3/10
    split_strategy := SplitStrategy.BY_AMOUNT_CLOSE, split_condition_unlimited := false }

/-- The source's default constraint configuration (models.ConstraintConfig). -/
def ccfgBase : ConstraintConfig :=
  { max_ticket_count := 10, small_ticket_limited := false
    small_ticket_80pct_amount_coverage := 1/2
    allowed_maturity_days := none, allowed_amount_range := none
    allowed_acceptor_classes := none }

/-- The source's default allocation configuration. -/
def cfgBase : AllocationConfig :=
  { amount_label_config := { large_ratio := 1/2, medium_ratio := 3/10, small_ratio := 1/5 }
    weight_config := wcfgBase
    split_config := scfgBase
    constraint_config := ccfgBase
    equal_amount_first := false
    equal_amount_threshold := 1000 }

/-- C1 scenario: organization-only scoring, tail tolerance 100, split minima
1000, minimum split ratio 3/10, at most one greedily selected bill. -/
def cfgC1 : AllocationConfig :=
  { cfgBase with
    weight_config :=
      { wcfgBase with w_maturity := 0, w_acceptor := 0, w_amount := 0, w_organization := 1 }
    split_config :=
      { scfgBase with tail_diff_abs := 100, tail_diff_ratio := 1/1000
                      min_remain := 1000, min_use := 1000 }
    constraint_config := { ccfgBase with max_ticket_count := 1 } }

/-- C1 scenario: a fully available small bill of the order's organization. -/
def tC1a : Ticket :=
  { id := "T1", amount := 10000, maturity_days := 30, acceptor_class := 1
    amount_label := AmountLabel.SMALL, organization := "A", available_amount := 10000 }

/-- C1 scenario: a partially available bill (20000 of 100000 left). -/
def tC1b : Ticket :=
  { id := "T2", amount := 100000, maturity_days := 30, acceptor_class := 1
    amount_label := AmountLabel.MEDIUM, organization := "B", available_amount := 20000 }

/-- C1 scenario's payment order. -/
def ordC1 : PaymentOrder := { id := "O1", amount := 25000, organization := "A", priority := 0 }

/-- C2 counterexample configuration: splitting disabled, otherwise defaults. -/
def cfgC2 : AllocationConfig :=
  { cfgBase with split_config := { scfgBase with allow_split := false } }

/-- C2 counterexample: a bill with only half of its face amount available. -/
def tC2 : Ticket :=
  { id := "T1", amount := 100000, maturity_days := 60, acceptor_class := 3
    amount_label := AmountLabel.MEDIUM, organization := "A", available_amount := 50000 }

/-- C2 counterexample's payment order. -/
def ordC2 : PaymentOrder := { id := "O1", amount := 50000, organization := "A", priority := 0 }

/-- C2 witness: the same bill fully available. -/
def tC2w : Ticket := { tC2 with available_amount := 100000 }

/-- C3 counterexample configuration: all four weights 1 (each in [0,1]),
deterministic strategies. -/
def cfgC3 : AllocationConfig :=
  { cfgBase with
    weight_config :=
      { wcfgBase with w_maturity := 1, w_acceptor := 1, w_amount := 1, w_organization := 1
                      amount_strategy := AmountStrategy.LESS_THAN_ORDER } }

/-- C3 counterexample bill: worst acceptor class, same organization. -/
def tC3 : Ticket :=
  { id := "T1", amount := 100, maturity_days := 50, acceptor_class := 5
    amount_label := AmountLabel.MEDIUM, organization := "A", available_amount := 100 }

/-- C3 counterexample order. -/
def ordC3 : PaymentOrder := { id := "O1", amount := 200, organization := "A", priority := 0 }

/-- C3 counterexample context: degenerate maturity range, no label ranges. -/
def ctxC3 : ScoringContext :=
  { maturity_range := (50, 50)
    amount_range_by_label := fun _ => none
    inventory_distribution := fun _ => 0
    randomness := 0 }

/-- C5 witness order: amount 5000, below the default 10000 tail tolerance. -/
def ordC5 : PaymentOrder := { id := "O5", amount := 5000, organization := "A", priority := 0 }

/-- C6 scenario configuration: equal-amount shortcut on, defaults otherwise. -/
def cfgC6 : AllocationConfig := { cfgBase with equal_amount_first := true }

/-- C6 scenario: a large fully available bill far from the order amount. -/
def tC6a : Ticket :=
  { id := "T1", amount := 500000, maturity_days := 120, acceptor_class := 3
    amount_label := AmountLabel.MEDIUM, organization := "A", available_amount := 500000 }

/-- C6 scenario: a bill within 500 of the order amount. -/
def tC6b : Ticket :=
  { id := "T2", amount := 300500, maturity_days := 60, acceptor_class := 1
    amount_label := AmountLabel.MEDIUM, organization := "B", available_amount := 300500 }

/-- C6 scenario's payment order. -/
def ordC6 : PaymentOrder := { id := "O1", amount := 300000, organization := "A", priority := 0 }

/-- C8/C10 witness: a bill with nothing available, so the filtered pool is
empty. -/
def tC8 : Ticket :=
  { id := "T1", amount := 100000, maturity_days := 60, acceptor_class := 3
    amount_label := AmountLabel.MEDIUM, organization := "A", available_amount := 0 }

/-- C8/C10 witness order. -/
def ordC8 : PaymentOrder := { id := "O8", amount := 300000, organization := "A", priority := 0 }

/-- C9 witness tickets, one per label. -/
def tC9L : Ticket :=
  { id := "L", amount := 2000000, maturity_days := 10, acceptor_class := 1
    amount_label := AmountLabel.LARGE, organization := "A", available_amount := 2000000 }

/-- C9 witness, medium label. -/
def tC9M : Ticket := { tC9L with id := "M", amount_label := AmountLabel.MEDIUM }

/-- C9 witness, small label. -/
def tC9S : Ticket := { tC9L with id := "S", amount_label := AmountLabel.SMALL }

/-- C9 witness context: the large label over its expected share. -/
def ctxC9 : ScoringContext :=
  { maturity_range := (10, 120)
    amount_range_by_label := fun _ => none
    inventory_distribution := fun label =>
      match label with
      | AmountLabel.LARGE => 7/10
      | AmountLabel.MEDIUM => 1/5
      | AmountLabel.SMALL => 1/10
    randomness := 0 }

/-- The scoring context allocate builds for the C1 pool [tC1a, tC1b]:
maturity range degenerate at 30, per-label amount ranges from the two bills,
inventory shares 0 / 10⁄11 / 1⁄11 of the 110000 total face amount. -/
def ctxC1 : ScoringContext :=
  { maturity_range := (30, 30)
    amount_range_by_label := fun label =>
      match label with
      | AmountLabel.LARGE => none
      | AmountLabel.MEDIUM => some (100000, 100000)
      | AmountLabel.SMALL => some (10000, 10000)
    inventory_distribution := fun label =>
      match label with
      | AmountLabel.LARGE => 0
      | AmountLabel.MEDIUM => 10/11
      | AmountLabel.SMALL => 1/11
    randomness := 0 }

/-- The usage of tC1a the C1 greedy pass produces (whole bill). -/
def tuC1a : TicketUsage :=
  { ticket := tC1a, used_amount := 10000, split_ratio := 1
    score := score_ticket tC1a ordC1 cfgC1 ctxC1, order_index := 0 }

/-- The usage of tC1b the C1 splitter appends: the min_ratio bump makes
used_amount = 0.3 · 100000 = 30000, above the bill's 20000 availability. -/
def tuC1b : TicketUsage :=
  { ticket := tC1b, used_amount := 30000, split_ratio := 3/10
    score := score_ticket tC1b ordC1 cfgC1 ctxC1, order_index := 1 }

/-- The SMALL-labeled entries of a (ticket, used_amount) selection, in
selection order (the `small` list of validate_small_ticket_constraint). -/
def small_selected (selected : List (Ticket × ℚ)) : List (Ticket × ℚ) :=
  selected.filter (fun p => decide (p.1.amount_label = AmountLabel.SMALL))

/-! General lemmas about the list helpers of the embedding. -/

theorem mem_insortDescBy {key : α → ℚ} {x a : α} {l : List α} :
    a ∈ insortDescBy key x l ↔ a = x ∨ a ∈ l := by
  induction l with
  | nil => simp [insortDescBy]
  | cons y ys ih =>
    unfold insortDescBy
    by_cases h : key x > key y
    · rw [if_pos h]
      simp [List.mem_cons]
    · rw [if_neg h]
      simp only [List.mem_cons, ih]
      tauto

theorem mem_sortDescBy {key : α → ℚ} {a : α} {l : List α} :
    a ∈ sortDescBy key l ↔ a ∈ l := by
  induction l with
  | nil => simp [sortDescBy]
  | cons y ys ih =>
    unfold sortDescBy
    rw [mem_insortDescBy]
    simp [List.mem_cons, ih]

theorem pickBestBy_mem (f : α → ℚ) (x : α) (xs : List α) :
    pickBestBy f x xs = x ∨ pickBestBy f x xs ∈ xs := by
  induction xs generalizing x with
  | nil => exact Or.inl rfl
  | cons y ys ih =>
    show pickBestBy f (if f y > f x then y else x) ys = x
      ∨ pickBestBy f (if f y > f x then y else x) ys ∈ y :: ys
    by_cases hc : f y > f x
    · rw [if_pos hc]
      rcases ih y with h | h
      · exact Or.inr (by rw [h]; exact List.mem_cons_self y ys)
      · exact Or.inr (List.mem_cons_of_mem y h)
    · rw [if_neg hc]
      rcases ih x with h | h
      · exact Or.inl h
      · exact Or.inr (List.mem_cons_of_mem y h)

theorem pickBestBy_le (f : α → ℚ) (x : α) (xs : List α) :
    ∀ a, (a = x ∨ a ∈ xs) → f a ≤ f (pickBestBy f x xs) := by
  induction xs generalizing x with
  | nil =>
    rintro a (rfl | h)
    · exact le_refl _
    · cases h
  | cons y ys ih =>
    have step : ∀ b, f b ≤ f (if f y > f b then y else b) := by
      intro b
      by_cases hc : f y > f b
      · rw [if_pos hc]
        exact le_of_lt hc
      · rw [if_neg hc]
    rintro a (rfl | h)
    · exact le_trans (step a) (ih _ _ (Or.inl rfl))
    · rcases List.mem_cons.mp h with rfl | hmem
      · have hy : f a ≤ f (if f a > f x then a else x) := by
          by_cases hc : f a > f x
          · rw [if_pos hc]
          · rw [if_neg hc]
            exact le_of_not_lt hc
        exact le_trans hy (ih _ _ (Or.inl rfl))
      · exact ih _ a (Or.inr hmem)

theorem insortAscBy_perm (key : α → ℚ) (x : α) (l : List α) :
    (insortAscBy key x l).Perm (x :: l) := by
  induction l with
  | nil => exact List.Perm.refl _
  | cons y ys ih =>
    unfold insortAscBy
    by_cases h : key x < key y
    · rw [if_pos h]
    · rw [if_neg h]
      exact (ih.cons y).trans (List.Perm.swap x y ys)

theorem sortAscBy_perm (key : α → ℚ) (l : List α) : (sortAscBy key l).Perm l := by
  induction l with
  | nil => exact List.Perm.refl _
  | cons y ys ih =>
    unfold sortAscBy
    exact (insortAscBy_perm key y (sortAscBy key ys)).trans (ih.cons y)

theorem insortAscBy_sorted (key : α → ℚ) (x : α) (l : List α)
    (h : l.Sorted (fun a b => key a ≤ key b)) :
    (insortAscBy key x l).Sorted (fun a b => key a ≤ key b) := by
  induction l with
  | nil => simp [insortAscBy]
  | cons y ys ih =>
    rw [List.sorted_cons] at h
    unfold insortAscBy
    by_cases hc : key x < key y
    · rw [if_pos hc, List.sorted_cons]
      constructor
      · intro b hb
        rcases List.mem_cons.mp hb with rfl | hb2
        · exact le_of_lt hc
        · exact le_trans (le_of_lt hc) (h.1 b hb2)
      · rw [List.sorted_cons]
        exact h
    · rw [if_neg hc, List.sorted_cons]
      refine ⟨?_, ih h.2⟩
      intro b hb
      have hbx : b ∈ x :: ys := (insortAscBy_perm key x ys).mem_iff.mp hb
      rcases List.mem_cons.mp hbx with rfl | hb2
      · exact le_of_not_lt hc
      · exact h.1 b hb2

theorem sortAscBy_sorted (key : α → ℚ) (l : List α) :
    (sortAscBy key l).Sorted (fun a b => key a ≤ key b) := by
  induction l with
  | nil => simp [sortAscBy]
  | cons y ys ih =>
    exact insortAscBy_sorted key y (sortAscBy key ys) ih

/-- C9: under amount strategy OPTIMIZE_INVENTORY, for any fixed configuration
and scoring context, the amount scores assigned to the three labels LARGE,
MEDIUM, SMALL sum to exactly 1: either every label scores 1/3 (zero total raw
weight), or the scores w_L / Σ w sum to 1. -/
theorem C9_optimize_inventory_scores_sum_to_one (config : AllocationConfig)
    (ctx : ScoringContext) (tL tM tS : Ticket)
    (hL : tL.amount_label = AmountLabel.LARGE)
    (hM : tM.amount_label = AmountLabel.MEDIUM)
    (hS : tS.amount_label = AmountLabel.SMALL) :
    score_optimize_inventory tL config ctx + score_optimize_inventory tM config ctx
      + score_optimize_inventory tS config ctx = 1 := by
  simp only [score_optimize_inventory, hL, hM, hS]
  by_cases h :
      raw_weight config ctx AmountLabel.LARGE + raw_weight config ctx AmountLabel.MEDIUM
        + raw_weight config ctx AmountLabel.SMALL = 0
  · rw [if_pos h, if_pos h, if_pos h]
    norm_num
  · rw [if_neg h, if_neg h, if_neg h, div_add_div_same, div_add_div_same, div_self h]

/-- Witness for C9 at a concrete configuration, context and label triple. -/
theorem C9_witness :
    score_optimize_inventory tC9L cfgBase ctxC9 + score_optimize_inventory tC9M cfgBase ctxC9
      + score_optimize_inventory tC9S cfgBase ctxC9 = 1 :=
  C9_optimize_inventory_scores_sum_to_one cfgBase ctxC9 tC9L tC9M tC9S rfl rfl rfl

/-- C8: if the pre-filter plus the available_amount > 0 condition leaves no
bill, allocate returns (does not raise) a result with an empty selection,
ticket_count = 0, total_amount = 0, bias_amount = order.amount,
constraints_met = false, and the "no available bills" warning. -/
theorem C8_empty_filtered_pool_result (config : AllocationConfig) (rand : ℚ)
    (order : PaymentOrder) (pool : List Ticket)
    (h : pool_filter config pool = []) :
    (allocate config rand order pool).1.selected_tickets = []
      ∧ (allocate config rand order pool).1.ticket_count = 0
      ∧ (allocate config rand order pool).1.total_amount = 0
      ∧ (allocate config rand order pool).1.bias_amount = order.amount
      ∧ (allocate config rand order pool).1.constraints_met = false
      ∧ (allocate config rand order pool).1.warnings = ["无可用票据"] := by
  simp [allocate, h, create_empty_result]

/-- Witness for C8: a pool whose only bill has nothing available. -/
theorem C8_witness :
    (allocate cfgBase 0 ordC8 [tC8]).1.selected_tickets = []
      ∧ (allocate cfgBase 0 ordC8 [tC8]).1.ticket_count = 0
      ∧ (allocate cfgBase 0 ordC8 [tC8]).1.total_amount = 0
      ∧ (allocate cfgBase 0 ordC8 [tC8]).1.bias_amount = ordC8.amount
      ∧ (allocate cfgBase 0 ordC8 [tC8]).1.constraints_met = false
      ∧ (allocate cfgBase 0 ordC8 [tC8]).1.warnings = ["无可用票据"] :=
  C8_empty_filtered_pool_result cfgBase 0 ordC8 [tC8] (by decide)

/-- C10: on the no-feasible-allocation path (every pool bill fails the
pre-filter or has available_amount ≤ 0), allocate returns the empty result
without modifying the available_amount of any bill: the pool comes back
unchanged. -/
theorem C10_empty_filtered_pool_frame (config : AllocationConfig) (rand : ℚ)
    (order : PaymentOrder) (pool : List Ticket)
    (h : ∀ t ∈ pool, ¬ (validate_ticket_filter t config = true ∧ 0 < t.available_amount)) :
    (allocate config rand order pool).2 = pool := by
  have hf : pool_filter config pool = [] := by
    unfold pool_filter
    rw [List.filter_eq_nil_iff]
    intro t ht
    simp only [Bool.and_eq_true, decide_eq_true_eq, not_and]
    intro h1 h2
    exact h t ht ⟨h1, h2⟩
  simp [allocate, hf]

/-- Witness for C10: the pool with one unavailable bill comes back unchanged. -/
theorem C10_witness : (allocate cfgBase 0 ordC8 [tC8]).2 = [tC8] :=
  C10_empty_filtered_pool_frame cfgBase 0 ordC8 [tC8] (by decide)

/-- The first-branch behaviour of one iteration of the splitter loop: when
0 < bias ≤ tail_diff and split_condition_unlimited is off, the iteration
stops, appends the wire-transfer warning, and keeps the selection. -/
theorem adjust_loop_wire_stop (remaining : List Ticket) (order : PaymentOrder)
    (config : AllocationConfig) (ctx : ScoringContext) (tail_diff : ℚ) (fuel : ℕ)
    (selected : List TicketUsage) (warnings : List String)
    (h1 : 0 < order.amount - usedSum selected)
    (h2 : order.amount - usedSum selected ≤ tail_diff)
    (h3 : config.split_config.split_condition_unlimited = false) :
    adjust_loop remaining order config ctx tail_diff (fuel + 1) selected warnings
      = (selected, warnings ++ ["差额在尾差阈值内，采用电汇补齐"]) := by
  show (if 0 < order.amount - usedSum selected
        ∧ order.amount - usedSum selected ≤ tail_diff
        ∧ config.split_config.split_condition_unlimited = false then
      (selected, warnings ++ ["差额在尾差阈值内，采用电汇补齐"])
    else _) = _
  rw [if_pos ⟨h1, h2, h3⟩]

/-- C5: tail_diff is max(tail_diff_abs, order.amount · tail_diff_ratio);
whenever the entry bias satisfies 0 < bias ≤ tail_diff and
split_condition_unlimited is false, the splitter stops, appends a warning and
leaves the selection unchanged; and the assembled result records
wire_transfer_diff = bias exactly when 0 < bias ≤ tail_diff (otherwise 0). -/
theorem C5_tail_difference_wire_transfer (selected : List TicketUsage)
    (remaining : List Ticket) (order : PaymentOrder) (config : AllocationConfig)
    (ctx : ScoringContext)
    (h1 : 0 < order.amount - usedSum selected)
    (h2 : order.amount - usedSum selected ≤ calculate_tail_diff order.amount config)
    (h3 : config.split_config.split_condition_unlimited = false) :
    calculate_tail_diff order.amount config
        = max config.split_config.tail_diff_abs
            (order.amount * config.split_config.tail_diff_ratio)
      ∧ adjust_with_split selected remaining order config ctx
          = (selected, ["差额在尾差阈值内，采用电汇补齐"])
      ∧ ∀ (sel2 : List TicketUsage) (ok : Bool) (warns : List String),
          (build_result config order sel2 ok warns).wire_transfer_diff
            = if 0 < order.amount - usedSum sel2
                ∧ order.amount - usedSum sel2 ≤ calculate_tail_diff order.amount config
              then order.amount - usedSum sel2 else 0 := by
  refine ⟨rfl, ?_, ?_⟩
  · have := adjust_loop_wire_stop remaining order config ctx
      (calculate_tail_diff order.amount config) 4 selected [] h1 h2 h3
    simpa [adjust_with_split] using this
  · intro sel2 ok warns
    rfl

/-- Witness for C5 at a concrete empty selection whose bias (the full order
amount 5000) lies inside the default 10000 tail tolerance. -/
theorem C5_witness :
    calculate_tail_diff ordC5.amount cfgBase
        = max cfgBase.split_config.tail_diff_abs
            (ordC5.amount * cfgBase.split_config.tail_diff_ratio)
      ∧ adjust_with_split [] [] ordC5 cfgBase ctxC3
          = ([], ["差额在尾差阈值内，采用电汇补齐"])
      ∧ ∀ (sel2 : List TicketUsage) (ok : Bool) (warns : List String),
          (build_result cfgBase ordC5 sel2 ok warns).wire_transfer_diff
            = if 0 < ordC5.amount - usedSum sel2
                ∧ ordC5.amount - usedSum sel2 ≤ calculate_tail_diff ordC5.amount cfgBase
              then ordC5.amount - usedSum sel2 else 0 :=
  C5_tail_difference_wire_transfer [] [] ordC5 cfgBase ctxC3
    (by norm_num [usedSum, ordC5])
    (by norm_num [usedSum, ordC5, cfgBase, scfgBase, calculate_tail_diff, le_max_iff])
    rfl

/-- C4: under amount strategy OPTIMIZE_INVENTORY, the amount score of a bill
with label L computed against the context built from the post-filter pool is
w_L / Σ w with w_L = 2·current_L − expected_L when current_L > expected_L
(else 0), where current_L is the face-amount share of the pool and
expected_L the configured ratio; 1/|labels| = 1/3 when Σ w = 0. -/
theorem C4_optimize_inventory_score (config : AllocationConfig) (rand : ℚ)
    (order : PaymentOrder) (t : Ticket) (tickets : List Ticket)
    (hstrat : config.weight_config.amount_strategy = AmountStrategy.OPTIMIZE_INVENTORY)
    (hpos : 0 < (tickets.map (fun t => t.amount)).sum) :
    score_amount t order config (build_context rand tickets)
      = specInvScore config tickets t.amount_label := by
  cases tickets with
  | nil => simp at hpos
  | cons t0 rest =>
    have hinv : ∀ label, (build_context rand (t0 :: rest)).inventory_distribution label
        = specCurrentShare (t0 :: rest) label := by
      intro label
      simp only [build_context]
      rw [if_pos hpos]
      rfl
    have hraw : ∀ label, raw_weight config (build_context rand (t0 :: rest)) label
        = specInvWeight config (t0 :: rest) label := by
      intro label
      simp only [raw_weight, specInvWeight, hinv]
    simp only [score_amount, hstrat, score_optimize_inventory, specInvScore, hraw]

/-- Witness for C4 at the concrete two-bill pool of the C1 scenario. -/
theorem C4_witness :
    score_amount tC1a ordC1 cfgC1 (build_context 0 [tC1a, tC1b])
      = specInvScore cfgC1 [tC1a, tC1b] tC1a.amount_label :=
  C4_optimize_inventory_score cfgC1 0 ordC1 tC1a [tC1a, tC1b] rfl
    (by norm_num [tC1a, tC1b])

/-- math.ceil of 0.8·n agrees with the integer formula (4n + 4) / 5. -/
theorem ceil_four_fifths (n : ℕ) :
    Int.toNat ⌈(n : ℚ) * (4/5)⌉ = (4 * n + 4) / 5 := by
  have hdm := Nat.div_add_mod (4 * n + 4) 5
  have hmlt : (4 * n + 4) % 5 < 5 := Nat.mod_lt _ (by norm_num)
  set m := (4 * n + 4) / 5 with hm
  have hub : 5 * m ≤ 4 * n + 4 := by omega
  have hlb : 4 * n ≤ 5 * m := by omega
  have hub2 : (5 : ℚ) * m ≤ 4 * n + 4 := by exact_mod_cast hub
  have hlb2 : (4 : ℚ) * n ≤ 5 * m := by exact_mod_cast hlb
  have hceil : ⌈(n : ℚ) * (4/5)⌉ = (m : ℤ) := by
    rw [Int.ceil_eq_iff]
    constructor
    · push_cast
      linarith
    · push_cast
      linarith
  rw [hceil]
  exact Int.toNat_natCast m

/-- C7: with small_ticket_limited enabled and n ≥ 1 SMALL bills selected, the
check sorts the SMALL bills by face amount ascending, takes the first
m = max(1, ceil(0.8·n)) of them, and passes iff their used amounts sum to at
least order.amount · small_ticket_80pct_amount_coverage, failing with a
descriptive message otherwise; it passes trivially when disabled or when no
SMALL bill is selected. -/
theorem C7_small_ticket_coverage (selected : List (Ticket × ℚ))
    (order_amount : ℚ) (config : AllocationConfig) :
    (sortAscBy (fun p => p.1.amount) (small_selected selected)).Perm (small_selected selected)
    ∧ (sortAscBy (fun p => p.1.amount) (small_selected selected)).Sorted
        (fun a b => a.1.amount ≤ b.1.amount)
    ∧ ((validate_small_ticket_constraint selected order_amount config).1 = true ↔
        config.constraint_config.small_ticket_limited = false
        ∨ small_selected selected = []
        ∨ order_amount * config.constraint_config.small_ticket_80pct_amount_coverage
            ≤ (((sortAscBy (fun p => p.1.amount) (small_selected selected)).take
                  (max 1 ((4 * (small_selected selected).length + 4) / 5))).map
                (fun p => p.2)).sum)
    ∧ (validate_small_ticket_constraint selected order_amount config).2
        = (if (validate_small_ticket_constraint selected order_amount config).1 then ""
           else "小额票前80%累计金额未达到要求") := by
  refine ⟨sortAscBy_perm _ _, sortAscBy_sorted _ _, ?_⟩
  have hlen : (sortAscBy (fun p => p.1.amount) (small_selected selected)).length
      = (small_selected selected).length :=
    (sortAscBy_perm _ _).length_eq
  unfold validate_small_ticket_constraint
  by_cases hlim : config.constraint_config.small_ticket_limited = false
  · rw [if_pos hlim]
    simp [hlim]
  · rw [if_neg hlim]
    by_cases hsm : (small_selected selected).isEmpty
    · have hnil : small_selected selected = [] := List.isEmpty_iff.mp hsm
      rw [show selected.filter (fun p => decide (p.1.amount_label = AmountLabel.SMALL))
            = small_selected selected from rfl]
      rw [hnil]
      simp [hnil]
    · rw [show selected.filter (fun p => decide (p.1.amount_label = AmountLabel.SMALL))
            = small_selected selected from rfl]
      rw [if_neg hsm]
      have hnnil : ¬(small_selected selected = []) := by
        intro hc
        exact hsm (by rw [hc]; rfl)
      simp only [ceil_four_fifths, hlen]
      by_cases hcov : (((sortAscBy (fun p => p.1.amount) (small_selected selected)).take
            (max 1 ((4 * (small_selected selected).length + 4) / 5))).map
          (fun p => p.2)).sum
          < order_amount * config.constraint_config.small_ticket_80pct_amount_coverage
      · rw [if_pos hcov]
        constructor
        · simp only [Bool.false_eq_true, false_iff, not_or, not_le]
          exact ⟨hlim, hnnil, hcov⟩
        · show _ = (if (false : Bool) = true then "" else "小额票前80%累计金额未达到要求")
          rw [if_neg Bool.false_ne_true]
      · rw [if_neg hcov]
        constructor
        · exact iff_of_true rfl (Or.inr (Or.inr (le_of_not_lt hcov)))
        · show _ = (if (true : Bool) = true then "" else "小额票前80%累计金额未达到要求")
          rw [if_pos rfl]

/-- score_ticket stores the scored ticket unchanged. -/
theorem score_ticket_ticket (t : Ticket) (o : PaymentOrder) (c : AllocationConfig)
    (x : ScoringContext) : (score_ticket t o c x).ticket = t := rfl

/-- With allow_split disabled, every branch of the splitter loop returns the
selection it was handed. -/
theorem adjust_loop_keeps_selection (remaining : List Ticket) (order : PaymentOrder)
    (config : AllocationConfig) (ctx : ScoringContext) (td : ℚ)
    (hsplit : config.split_config.allow_split = false) :
    ∀ (fuel : ℕ) (selected : List TicketUsage) (ws : List String),
      (adjust_loop remaining order config ctx td fuel selected ws).1 = selected := by
  intro fuel
  cases fuel with
  | zero => intro selected ws; rfl
  | succ n =>
    intro selected ws
    simp only [adjust_loop]
    repeat' split
    all_goals first
    | rfl
    | exact absurd hsplit (by assumption)

/-- With allow_split disabled, adjust_with_split returns the greedy selection
unchanged. -/
theorem adjust_with_split_keeps_selection (selected : List TicketUsage)
    (remaining : List Ticket) (order : PaymentOrder) (config : AllocationConfig)
    (ctx : ScoringContext) (hsplit : config.split_config.allow_split = false) :
    (adjust_with_split selected remaining order config ctx).1 = selected :=
  adjust_loop_keeps_selection remaining order config ctx
    (calculate_tail_diff order.amount config) hsplit 5 selected []

/-- With allow_split disabled, a fully available positive ticket is used
whole by the greedy step: (to_use, ratio) = (amount, 1). -/
theorem combination_use_no_split (config : AllocationConfig) (ticket : Ticket) (need : ℚ)
    (hsplit : config.split_config.allow_split = false)
    (hfresh : ticket.available_amount = ticket.amount)
    (hpos : 0 < ticket.available_amount) :
    combination_use config ticket need = (ticket.amount, 1) := by
  simp only [combination_use, hfresh, min_self]
  rw [if_neg (by simp [hsplit])]
  rw [div_self (ne_of_gt (hfresh ▸ hpos))]

/-- With allow_split disabled and every scored ticket fully available, every
usage the greedy loop ever holds has split_ratio 1. -/
theorem build_combination_go_ratio_one (order : PaymentOrder) (config : AllocationConfig)
    (hsplit : config.split_config.allow_split = false) :
    ∀ (scored : List TicketScore) (st : BuildState),
      (∀ ts ∈ scored, ts.ticket.available_amount = ts.ticket.amount) →
      (∀ tu ∈ st.selected, tu.split_ratio = 1) →
      ∀ tu ∈ (build_combination_go order config scored st).selected, tu.split_ratio = 1 := by
  intro scored
  induction scored with
  | nil =>
    intro st hs hst tu htu
    exact hst tu htu
  | cons ts rest ih =>
    intro st hs hst tu htu
    simp only [build_combination_go] at htu
    by_cases h1 : st.selected.length ≥ config.constraint_config.max_ticket_count
    · rw [if_pos h1] at htu
      exact hst tu htu
    · rw [if_neg h1] at htu
      by_cases h2 : st.used_ids.contains ts.ticket.id = true
      · rw [if_pos h2] at htu
        exact ih st (fun a ha => hs a (List.mem_cons_of_mem ts ha)) hst tu htu
      · rw [if_neg h2] at htu
        by_cases h3 : ts.ticket.available_amount ≤ 0
        · rw [if_pos h3] at htu
          exact ih st (fun a ha => hs a (List.mem_cons_of_mem ts ha)) hst tu htu
        · rw [if_neg h3] at htu
          by_cases h4 : order.amount - st.accumulated ≤ 0
          · rw [if_pos h4] at htu
            exact hst tu htu
          · rw [if_neg h4] at htu
            rw [combination_use_no_split config ts.ticket (order.amount - st.accumulated)
              hsplit (hs ts (List.mem_cons_self ts rest)) (lt_of_not_le h3)] at htu
            have hst2 : ∀ tu2 ∈ st.selected ++
                [{ ticket := ts.ticket, used_amount := ts.ticket.amount, split_ratio := 1,
                   score := ts, order_index := st.selected.length }], tu2.split_ratio = 1 := by
              intro tu2 htu2
              rcases List.mem_append.mp htu2 with hm | hm
              · exact hst tu2 hm
              · rcases List.mem_singleton.mp hm with rfl
                rfl
            by_cases h5 : st.accumulated + ts.ticket.amount ≥ order.amount
            · rw [if_pos h5] at htu
              exact hst2 tu htu
            · rw [if_neg h5] at htu
              exact ih _ (fun a ha => hs a (List.mem_cons_of_mem ts ha)) hst2 tu htu

/-- The explicit single-bill result _try_equal_match builds when equal-amount
candidates exist: the chosen score is an earliest maximum of the candidates'
total scores, and the result is the literal record of the source. -/
theorem try_equal_match_spec (config : AllocationConfig) (order : PaymentOrder)
    (tickets : List Ticket) (ctx : ScoringContext) (pool : List Ticket)
    (e : Ticket) (es : List Ticket)
    (hc : equal_candidates config order tickets = e :: es) :
    ∃ best : TicketScore,
      best ∈ (e :: es).map (fun t => score_ticket t order config ctx)
      ∧ (∀ s ∈ (e :: es).map (fun t => score_ticket t order config ctx),
          s.total_score ≤ best.total_score)
      ∧ try_equal_match config order tickets ctx pool = some
          ({ order_id := order.id
             target_amount := order.amount
             selected_tickets := [{
               ticket := { best.ticket with
                 available_amount := best.ticket.available_amount - best.ticket.amount }
               used_amount := best.ticket.amount, split_ratio := 1,
               score := best, order_index := 0 }]
             total_amount := best.ticket.amount
             bias_amount := order.amount - best.ticket.amount
             wire_transfer_diff := 0
             ticket_count := 1
             split_count := 0
             split_amount := 0
             remain_amount := 0
             total_score := best.total_score
             constraints_met := true
             warnings := ["等额配票成功"] },
           pool.map (fun t => if t.id = best.ticket.id then
             { best.ticket with
               available_amount := best.ticket.available_amount - best.ticket.amount }
             else t)) := by
  refine ⟨pickBestBy (fun s : TicketScore => s.total_score) (score_ticket e order config ctx)
    (es.map (fun t => score_ticket t order config ctx)), ?_, ?_, ?_⟩
  · rcases pickBestBy_mem (fun s : TicketScore => s.total_score) (score_ticket e order config ctx)
      (es.map (fun t => score_ticket t order config ctx)) with h | h
    · rw [List.map_cons, h]
      exact List.mem_cons_self _ _
    · rw [List.map_cons]
      exact List.mem_cons_of_mem _ h
  · intro s hs
    rw [List.map_cons] at hs
    rcases List.mem_cons.mp hs with h | hmem
    · rw [h]
      exact pickBestBy_le (fun x : TicketScore => x.total_score) _ _ _ (Or.inl rfl)
    · exact pickBestBy_le (fun x : TicketScore => x.total_score) _ _ s (Or.inr hmem)
  · simp only [try_equal_match, hc, List.map_cons]

/-- With allow_split disabled and a fully available filtered pool, every
usage the main allocation path returns has split_ratio 1. -/
theorem allocate_main_no_split_ratio_one (config : AllocationConfig)
    (order : PaymentOrder) (pool filtered : List Ticket) (ctx : ScoringContext)
    (hsplit : config.split_config.allow_split = false)
    (hfa : ∀ t ∈ filtered, t.available_amount = t.amount) :
    ∀ tu ∈ (allocate_main config order pool filtered ctx).1.selected_tickets,
      tu.split_ratio = 1 := by
  intro tu htu
  simp only [allocate_main, build_result] at htu
  rw [adjust_with_split_keeps_selection _ _ _ _ _ hsplit] at htu
  refine build_combination_go_ratio_one order config hsplit
    (sortDescBy (fun ts => ts.total_score)
      (filtered.map (fun t => score_ticket t order config ctx)))
    { selected := [], used_ids := [], accumulated := 0 } ?_ ?_ tu htu
  · intro ts hts
    have hmem : ts ∈ filtered.map (fun t => score_ticket t order config ctx) :=
      mem_sortDescBy.mp hts
    rcases List.mem_map.mp hmem with ⟨t, ht, rfl⟩
    rw [score_ticket_ticket]
    exact hfa t ht
  · intro tu2 htu2
    cases htu2

/-- C2, corrected: with allow_split = false and every pool bill fully
available (available_amount = amount, e.g. a fresh pool), every BillUsage in
the returned selected list has split_ratio = 1. -/
theorem C2_no_split_ratio_one (config : AllocationConfig) (rand : ℚ)
    (order : PaymentOrder) (pool : List Ticket)
    (hsplit : config.split_config.allow_split = false)
    (hfresh : ∀ t ∈ pool, t.available_amount = t.amount) :
    ∀ tu ∈ (allocate config rand order pool).1.selected_tickets, tu.split_ratio = 1 := by
  intro tu htu
  have hfa : ∀ t ∈ pool_filter config pool, t.available_amount = t.amount := by
    intro t ht
    exact hfresh t (List.mem_of_mem_filter ht)
  cases hf : pool_filter config pool with
  | nil =>
    simp only [allocate, hf] at htu
    cases htu
  | cons f0 frest =>
    simp only [allocate, hf] at htu
    by_cases heq : config.equal_amount_first = true
    · rw [if_pos heq] at htu
      cases hte : try_equal_match config order (f0 :: frest)
          (build_context rand (f0 :: frest)) pool with
      | none =>
        rw [hte] at htu
        exact allocate_main_no_split_ratio_one config order pool (f0 :: frest)
          (build_context rand (f0 :: frest)) hsplit (hf ▸ hfa) tu htu
      | some res =>
        rw [hte] at htu
        cases hc : equal_candidates config order (f0 :: frest) with
        | nil =>
          rw [try_equal_match, hc] at hte
          cases hte
        | cons e es =>
          obtain ⟨best, _, _, hres⟩ := try_equal_match_spec config order (f0 :: frest)
            (build_context rand (f0 :: frest)) pool e es hc
          rw [hres] at hte
          cases Option.some.inj hte
          rcases List.mem_singleton.mp htu with rfl
          rfl
    · rw [if_neg heq] at htu
      exact allocate_main_no_split_ratio_one config order pool (f0 :: frest)
        (build_context rand (f0 :: frest)) hsplit (hf ▸ hfa) tu htu

/-- Witness for the corrected C2 on a fresh one-bill pool with splitting
disabled. -/
theorem C2_witness :
    ((allocate cfgC2 0 ordC2 [tC2w]).1.selected_tickets.all
      (fun tu => tu.split_ratio == 1)) = true := by
  rw [List.all_eq_true]
  intro tu htu
  rw [beq_iff_eq]
  exact C2_no_split_ratio_one cfgC2 0 ordC2 [tC2w] rfl
    (by intro t ht; rcases List.mem_singleton.mp ht with rfl; rfl) tu htu

/-- Counterexample to C2 as stated: with allow_split = false but a partially
available bill (50000 of 100000 left), allocate returns a usage whose
split_ratio is 1/2, not 1. -/
theorem C2_counterexample :
    cfgC2.split_config.allow_split = false
    ∧ (allocate cfgC2 0 ordC2 [tC2]).1.selected_tickets.map (fun tu => tu.split_ratio)
        = [1/2] := by
  constructor
  · rfl
  · norm_num [allocate, pool_filter, validate_ticket_filter, allocate_main,
      build_combination, build_combination_go, combination_use, validate_split_constraints,
      adjust_with_split, adjust_loop, calculate_tail_diff, usedSum, build_result,
      sortDescBy, insortDescBy, List.filter_cons, Bool.true_and, score_ticket_ticket,
      tC2, ordC2, cfgC2, cfgBase, scfgBase, ccfgBase, wcfgBase,
      min_def, max_def, abs]

/-- C1 trace: both bills pass the pre-filter. -/
theorem pool_filter_C1 : pool_filter cfgC1 [tC1a, tC1b] = [tC1a, tC1b] := by decide

/-- C1 trace: the built scoring context is ctxC1. -/
theorem build_context_C1 : build_context 0 [tC1a, tC1b] = ctxC1 := by
  simp only [build_context, ctxC1, ScoringContext.mk.injEq]
  refine ⟨?_, ?_, ?_, trivial⟩
  · norm_num [foldMin, foldMax, tC1a, tC1b]
  · funext label
    cases label <;>
      norm_num +decide [label_amounts, tC1a, tC1b, List.filter_cons]
  · funext label
    cases label <;>
      norm_num +decide [label_amounts, tC1a, tC1b, List.filter_cons]

/-- C1 trace: the same-organization bill scores 1 (organization-only
weights). -/
theorem score_tC1a_total : (score_ticket tC1a ordC1 cfgC1 ctxC1).total_score = 1 := by
  norm_num +decide [score_ticket, score_maturity, score_acceptor, score_amount,
    score_organization, score_optimize_inventory, raw_weight, expected_ratio,
    ctxC1, tC1a, ordC1, cfgC1, cfgBase, wcfgBase, scfgBase, ccfgBase]

/-- C1 trace: the cross-organization bill scores 0. -/
theorem score_tC1b_total : (score_ticket tC1b ordC1 cfgC1 ctxC1).total_score = 0 := by
  norm_num +decide [score_ticket, score_maturity, score_acceptor, score_amount,
    score_organization, score_optimize_inventory, raw_weight, expected_ratio,
    ctxC1, tC1b, ordC1, cfgC1, cfgBase, wcfgBase, scfgBase, ccfgBase]

/-- C1 trace: the scored list is already sorted descending. -/
theorem sort_scored_C1 : sortDescBy (fun ts => ts.total_score)
    [score_ticket tC1a ordC1 cfgC1 ctxC1, score_ticket tC1b ordC1 cfgC1 ctxC1]
    = [score_ticket tC1a ordC1 cfgC1 ctxC1, score_ticket tC1b ordC1 cfgC1 ctxC1] := by
  norm_num [sortDescBy, insortDescBy, score_tC1a_total, score_tC1b_total]

set_option maxHeartbeats 1000000 in
/-- C1 trace: the greedy pass takes tC1a whole (max_ticket_count = 1) and
leaves tC1b in the remaining pool. -/
theorem build_combination_C1 : build_combination ordC1 cfgC1
    [score_ticket tC1a ordC1 cfgC1 ctxC1, score_ticket tC1b ordC1 cfgC1 ctxC1]
    = ([tuC1a], [tC1b]) := by
  norm_num +decide [build_combination, build_combination_go, combination_use,
    score_ticket_ticket, tuC1a, tC1a, tC1b, ordC1, cfgC1, cfgBase, scfgBase, ccfgBase,
    wcfgBase, min_def, List.filter_cons]

set_option maxHeartbeats 1000000 in
/-- C1 trace: the splitter augments with tC1b; the desired ratio 0.15 fails
min_ratio 0.3, the bump to 0.3 passes, and the appended usage carries
used_amount 30000 although only 20000 is available. -/
theorem add_split_C1 : add_split_ticket [tuC1a] [tC1b] (ordC1.amount - usedSum [tuC1a])
    cfgC1 ctxC1 ordC1 = some ([tuC1a, tuC1b], "新增拆票") := by
  norm_num +decide [add_split_ticket, usedSum, select_split_ticket, pickLeastBy,
    validate_split_constraints, tuC1a, tuC1b, tC1a, tC1b, ordC1, cfgC1, cfgBase,
    scfgBase, ccfgBase, wcfgBase, min_def, List.filter_cons]

set_option maxHeartbeats 1000000 in
/-- C1 trace: the over-allocation repair fails (the reduced ratio 0.15 would
violate min_ratio again), so the splitter stops with the 30000 usage kept. -/
theorem split_from_selected_C1 : split_from_selected [tuC1a, tuC1b]
    |ordC1.amount - usedSum [tuC1a, tuC1b]| cfgC1 ctxC1 ordC1 = none := by
  norm_num +decide [split_from_selected, split_update, usedSum, select_split_ticket,
    pickLeastBy, validate_split_constraints, tuC1a, tuC1b, tC1a, tC1b, ordC1, cfgC1,
    cfgBase, scfgBase, ccfgBase, wcfgBase, min_def, abs, max_def, List.filter_cons]

/-- One augmenting iteration of the splitter loop, as an equation. -/
theorem adjust_loop_step_add (remaining : List Ticket) (order : PaymentOrder)
    (config : AllocationConfig) (ctx : ScoringContext) (td : ℚ) (fuel : ℕ)
    (selected sel2 : List TicketUsage) (ws : List String) (msg : String)
    (hb1 : ¬(0 < order.amount - usedSum selected
      ∧ order.amount - usedSum selected ≤ td
      ∧ config.split_config.split_condition_unlimited = false))
    (hb2 : ¬(|order.amount - usedSum selected| ≤ td))
    (hb3 : order.amount - usedSum selected > td)
    (hb4 : config.split_config.allow_split = true)
    (hadd : add_split_ticket selected remaining (order.amount - usedSum selected)
      config ctx order = some (sel2, msg)) :
    adjust_loop remaining order config ctx td (fuel + 1) selected ws
      = adjust_loop remaining order config ctx td fuel sel2 (ws ++ ["补票拆分: " ++ msg]) := by
  simp only [adjust_loop]
  rw [if_neg hb1, if_neg hb2, if_pos hb3, if_neg (by simp [hb4]), hadd]

/-- A failed reducing iteration of the splitter loop, as an equation. -/
theorem adjust_loop_step_reduce_fail (remaining : List Ticket) (order : PaymentOrder)
    (config : AllocationConfig) (ctx : ScoringContext) (td : ℚ) (fuel : ℕ)
    (selected : List TicketUsage) (ws : List String)
    (hb1 : ¬(0 < order.amount - usedSum selected
      ∧ order.amount - usedSum selected ≤ td
      ∧ config.split_config.split_condition_unlimited = false))
    (hb2 : ¬(|order.amount - usedSum selected| ≤ td))
    (hb3 : ¬(order.amount - usedSum selected > td))
    (hb4 : config.split_config.allow_split = true)
    (hsp : split_from_selected selected |order.amount - usedSum selected|
      config ctx order = none) :
    adjust_loop remaining order config ctx td (fuel + 1) selected ws
      = (selected, ws ++ ["无法从组合中拆票"]) := by
  simp only [adjust_loop]
  rw [if_neg hb1, if_neg hb2, if_neg hb3, if_neg (by simp [hb4]), hsp]

/-- C1 trace: the splitter returns the two usages (40000 in total against a
25000 order) with the augment and failed-repair warnings. -/
theorem adjust_C1 : adjust_with_split [tuC1a] [tC1b] ordC1 cfgC1 ctxC1
    = ([tuC1a, tuC1b], ["补票拆分: 新增拆票", "无法从组合中拆票"]) := by
  have hTd : calculate_tail_diff ordC1.amount cfgC1 = 100 := by
    norm_num [calculate_tail_diff, ordC1, cfgC1, cfgBase, scfgBase, max_def]
  have hu1 : ordC1.amount - usedSum [tuC1a] = 15000 := by
    norm_num [usedSum, tuC1a, ordC1]
  have hu2 : ordC1.amount - usedSum [tuC1a, tuC1b] = -15000 := by
    norm_num [usedSum, tuC1a, tuC1b, ordC1]
  unfold adjust_with_split
  rw [hTd]
  rw [show (5:ℕ) = 4 + 1 from rfl]
  rw [adjust_loop_step_add [tC1b] ordC1 cfgC1 ctxC1 100 4 [tuC1a] [tuC1a, tuC1b] []
    "新增拆票" (by rw [hu1]; norm_num [cfgC1, cfgBase, scfgBase])
    (by rw [hu1]; norm_num) (by rw [hu1]; norm_num) rfl add_split_C1]
  simp only [List.nil_append]
  rw [show ("补票拆分: " ++ "新增拆票" : String) = "补票拆分: 新增拆票" from by simp]
  rw [show (4:ℕ) = 3 + 1 from rfl]
  rw [adjust_loop_step_reduce_fail [tC1b] ordC1 cfgC1 ctxC1 100 3 [tuC1a, tuC1b]
    ["补票拆分: 新增拆票"] (by rw [hu2]; norm_num) (by rw [hu2]; norm_num)
    (by rw [hu2]; norm_num) rfl split_from_selected_C1]
  rfl

/-- C1 trace: the pool mutation drives tC1b's available_amount to −10000. -/
theorem apply_usage_C1 : apply_usage [tuC1a, tuC1b] [tC1a, tC1b]
    = [{ tC1a with available_amount := 0 }, { tC1b with available_amount := -10000 }] := by
  norm_num +decide [apply_usage, used_on, tuC1a, tuC1b, tC1a, tC1b, List.filter_cons]

set_option maxHeartbeats 1000000 in
/-- C1 (code bug): on the valid pool [tC1a, tC1b] (each bill with
0 ≤ available_amount ≤ amount) and the positive order ordC1, allocate leaves
tC1b with available_amount = −10000 < 0: _add_split_ticket's min_ratio bump
sets used_amount = 30000 above the bill's 20000 availability, and the step-8
decrement goes negative, violating the ≥ 0 invariant the claim states. -/
theorem C1_negative_available_bug :
    (0:ℚ) ≤ tC1a.available_amount ∧ tC1a.available_amount ≤ tC1a.amount
    ∧ (0:ℚ) ≤ tC1b.available_amount ∧ tC1b.available_amount ≤ tC1b.amount
    ∧ 0 < ordC1.amount
    ∧ (allocate cfgC1 0 ordC1 [tC1a, tC1b]).2.map (fun t => t.available_amount)
        = [0, -10000] := by
  refine ⟨by norm_num [tC1a], by norm_num [tC1a], by norm_num [tC1b],
    by norm_num [tC1b], by norm_num [ordC1], ?_⟩
  have hmain : allocate cfgC1 0 ordC1 [tC1a, tC1b]
      = allocate_main cfgC1 ordC1 [tC1a, tC1b] [tC1a, tC1b] ctxC1 := by
    simp only [allocate, pool_filter_C1, build_context_C1]
    rw [if_neg (by decide)]
  rw [hmain]
  simp only [allocate_main, List.map_cons, List.map_nil, sort_scored_C1,
    build_combination_C1]
  rw [adjust_C1]
  simp only [apply_usage_C1]
  norm_num [tC1a, tC1b]

/-- C6: if equal_amount_first is enabled and some filtered bill lies within
equal_amount_threshold of the order amount, allocate returns exactly one
BillUsage with split_ratio = 1, used_amount equal to the chosen bill's face
amount, constraints_met = true, and the chosen bill is a maximum-scoring one
among the qualifying bills. -/
theorem C6_equal_amount_shortcut (config : AllocationConfig) (rand : ℚ)
    (order : PaymentOrder) (pool : List Ticket) (e : Ticket) (es : List Ticket)
    (heq : config.equal_amount_first = true)
    (hc : equal_candidates config order (pool_filter config pool) = e :: es) :
    ∃ tu : TicketUsage,
      (allocate config rand order pool).1.selected_tickets = [tu]
      ∧ tu.split_ratio = 1
      ∧ tu.used_amount = tu.score.ticket.amount
      ∧ tu.ticket.amount = tu.score.ticket.amount
      ∧ (allocate config rand order pool).1.constraints_met = true
      ∧ tu.score.ticket ∈ equal_candidates config order (pool_filter config pool)
      ∧ ∀ t ∈ equal_candidates config order (pool_filter config pool),
          (score_ticket t order config
            (build_context rand (pool_filter config pool))).total_score
            ≤ tu.score.total_score := by
  cases hf : pool_filter config pool with
  | nil =>
    rw [hf] at hc
    simp [equal_candidates] at hc
  | cons f0 frest =>
    rw [hf] at hc
    obtain ⟨best, hmem, hle, hres⟩ := try_equal_match_spec config order (f0 :: frest)
      (build_context rand (f0 :: frest)) pool e es hc
    have hall : allocate config rand order pool = ⟨
        { order_id := order.id
          target_amount := order.amount
          selected_tickets := [{
            ticket := { best.ticket with
              available_amount := best.ticket.available_amount - best.ticket.amount }
            used_amount := best.ticket.amount, split_ratio := 1,
            score := best, order_index := 0 }]
          total_amount := best.ticket.amount
          bias_amount := order.amount - best.ticket.amount
          wire_transfer_diff := 0
          ticket_count := 1
          split_count := 0
          split_amount := 0
          remain_amount := 0
          total_score := best.total_score
          constraints_met := true
          warnings := ["等额配票成功"] },
        pool.map (fun t => if t.id = best.ticket.id then
          { best.ticket with
            available_amount := best.ticket.available_amount - best.ticket.amount }
          else t)⟩ := by
      simp only [allocate, hf]
      rw [if_pos heq, hres]
    refine ⟨_, by rw [hall], rfl, rfl, rfl, by rw [hall], ?_, ?_⟩
    · rw [hc]
      rcases List.mem_map.mp hmem with ⟨t, ht, hbt⟩
      have hbt2 : ({
          ticket := { best.ticket with
            available_amount := best.ticket.available_amount - best.ticket.amount }
          used_amount := best.ticket.amount, split_ratio := 1,
          score := best, order_index := 0 } : TicketUsage).score.ticket = t := by
        rw [← hbt, score_ticket_ticket]
      rw [hbt2]
      exact ht
    · intro t ht
      rw [hc] at ht
      exact hle (score_ticket t order config (build_context rand (f0 :: frest)))
        (List.mem_map_of_mem _ ht)

/-- Witness for C6: the S2 scenario (bills 500000 and 300500, order 300000,
threshold 1000) where T2 is the single qualifying bill. -/
theorem C6_witness :
    ∃ tu : TicketUsage,
      (allocate cfgC6 0 ordC6 [tC6a, tC6b]).1.selected_tickets = [tu]
      ∧ tu.split_ratio = 1
      ∧ tu.used_amount = tu.score.ticket.amount
      ∧ tu.ticket.amount = tu.score.ticket.amount
      ∧ (allocate cfgC6 0 ordC6 [tC6a, tC6b]).1.constraints_met = true
      ∧ tu.score.ticket ∈ equal_candidates cfgC6 ordC6 (pool_filter cfgC6 [tC6a, tC6b])
      ∧ ∀ t ∈ equal_candidates cfgC6 ordC6 (pool_filter cfgC6 [tC6a, tC6b]),
          (score_ticket t ordC6 cfgC6
            (build_context 0 (pool_filter cfgC6 [tC6a, tC6b]))).total_score
            ≤ tu.score.total_score :=
  C6_equal_amount_shortcut cfgC6 0 ordC6 [tC6a, tC6b] tC6b [] rfl
    (by norm_num +decide [equal_candidates, pool_filter, validate_ticket_filter,
      List.filter_cons, tC6a, tC6b, ordC6, cfgC6, cfgBase, ccfgBase, abs, max_def])

/-- Counterexample to C3 as stated: with all four weights equal to 1 (each in
[0,1]) and every dimension scoring 1, the total score is 4, outside [0,1]. -/
theorem C3_counterexample : (score_ticket tC3 ordC3 cfgC3 ctxC3).total_score = 4 := by
  norm_num +decide [score_ticket, score_maturity, score_acceptor, score_amount,
    score_organization, tC3, ordC3, cfgC3, cfgBase, wcfgBase, scfgBase, ccfgBase,
    ctxC3, min_def, max_def]

/-- The maturity score lies in [0,1] whenever the bill's maturity lies inside
the context's maturity range. -/
theorem score_maturity_bounds (t : Ticket) (w : WeightConfig) (ctx : ScoringContext)
    (h1 : ctx.maturity_range.1 ≤ t.maturity_days)
    (h2 : t.maturity_days ≤ ctx.maturity_range.2) :
    0 ≤ score_maturity t w ctx ∧ score_maturity t w ctx ≤ 1 := by
  simp only [score_maturity]
  by_cases he : ctx.maturity_range.2 = ctx.maturity_range.1
  · rw [if_pos he]
    norm_num
  · rw [if_neg he]
    cases hstrat : w.maturity_strategy with
    | FAR_FIRST =>
      dsimp only
      by_cases hd : t.maturity_days ≥ w.maturity_threshold
      · rw [if_pos hd]
        by_cases he2 : ctx.maturity_range.2 = w.maturity_threshold
        · rw [if_pos he2]
          norm_num
        · rw [if_neg he2]
          have hgt : (w.maturity_threshold : ℚ) < ((ctx.maturity_range.2 : ℤ) : ℚ) := by
            have hz : w.maturity_threshold < ctx.maturity_range.2 :=
              lt_of_le_of_ne (le_trans hd h2) (fun hcon => he2 hcon.symm)
            exact_mod_cast hz
          have hdq : (w.maturity_threshold : ℚ) ≤ ((t.maturity_days : ℤ) : ℚ) := by
            exact_mod_cast hd
          have hq0 : 0 ≤ ((t.maturity_days - w.maturity_threshold : ℤ) : ℚ)
              / ((ctx.maturity_range.2 - w.maturity_threshold : ℤ) : ℚ) := by
            apply div_nonneg
            · push_cast
              linarith
            · push_cast
              linarith
          have hm0 : 0 ≤ min 1 (((t.maturity_days - w.maturity_threshold : ℤ) : ℚ)
              / ((ctx.maturity_range.2 - w.maturity_threshold : ℤ) : ℚ)) :=
            le_min zero_le_one hq0
          have hm1 : min 1 (((t.maturity_days - w.maturity_threshold : ℤ) : ℚ)
              / ((ctx.maturity_range.2 - w.maturity_threshold : ℤ) : ℚ)) ≤ 1 :=
            min_le_left _ _
          constructor <;> linarith
      · rw [if_neg hd]
        by_cases he3 : w.maturity_threshold = ctx.maturity_range.1
        · rw [if_pos he3]
          norm_num
        · rw [if_neg he3]
          have hdlt : t.maturity_days < w.maturity_threshold := lt_of_not_le hd
          have hden : ((ctx.maturity_range.1 : ℤ) : ℚ) < (w.maturity_threshold : ℚ) := by
            have hz : ctx.maturity_range.1 < w.maturity_threshold :=
              lt_of_le_of_lt h1 hdlt
            exact_mod_cast hz
          have hnum0 : ((ctx.maturity_range.1 : ℤ) : ℚ) ≤ ((t.maturity_days : ℤ) : ℚ) := by
            exact_mod_cast h1
          have hnum1 : ((t.maturity_days : ℤ) : ℚ) ≤ (w.maturity_threshold : ℚ) := by
            exact_mod_cast le_of_lt hdlt
          have hq0 : 0 ≤ ((t.maturity_days - ctx.maturity_range.1 : ℤ) : ℚ)
              / ((w.maturity_threshold - ctx.maturity_range.1 : ℤ) : ℚ) := by
            apply div_nonneg
            · push_cast
              linarith
            · push_cast
              linarith
          have hq1 : ((t.maturity_days - ctx.maturity_range.1 : ℤ) : ℚ)
              / ((w.maturity_threshold - ctx.maturity_range.1 : ℤ) : ℚ) ≤ 1 := by
            rw [div_le_one (by push_cast; linarith)]
            push_cast
            linarith
          have hmx0 : 0 ≤ max 0 (((t.maturity_days - ctx.maturity_range.1 : ℤ) : ℚ)
              / ((w.maturity_threshold - ctx.maturity_range.1 : ℤ) : ℚ)) := le_max_left _ _
          have hmx1 : max 0 (((t.maturity_days - ctx.maturity_range.1 : ℤ) : ℚ)
              / ((w.maturity_threshold - ctx.maturity_range.1 : ℤ) : ℚ)) ≤ 1 :=
            max_le zero_le_one hq1
          constructor <;> linarith
    | NEAR_FIRST =>
      dsimp only
      by_cases hd : t.maturity_days ≤ w.maturity_threshold
      · rw [if_pos hd]
        by_cases he3 : w.maturity_threshold = ctx.maturity_range.1
        · rw [if_pos he3]
          norm_num
        · rw [if_neg he3]
          have hden : ((ctx.maturity_range.1 : ℤ) : ℚ) < (w.maturity_threshold : ℚ) := by
            have hz : ctx.maturity_range.1 < w.maturity_threshold :=
              lt_of_le_of_ne (le_trans h1 hd) (fun hcon => he3 hcon.symm)
            exact_mod_cast hz
          have hdq : ((t.maturity_days : ℤ) : ℚ) ≤ (w.maturity_threshold : ℚ) := by
            exact_mod_cast hd
          have hq0 : 0 ≤ ((w.maturity_threshold - t.maturity_days : ℤ) : ℚ)
              / ((w.maturity_threshold - ctx.maturity_range.1 : ℤ) : ℚ) := by
            apply div_nonneg
            · push_cast
              linarith
            · push_cast
              linarith
          have hm0 : 0 ≤ min 1 (((w.maturity_threshold - t.maturity_days : ℤ) : ℚ)
              / ((w.maturity_threshold - ctx.maturity_range.1 : ℤ) : ℚ)) :=
            le_min zero_le_one hq0
          have hm1 : min 1 (((w.maturity_threshold - t.maturity_days : ℤ) : ℚ)
              / ((w.maturity_threshold - ctx.maturity_range.1 : ℤ) : ℚ)) ≤ 1 :=
            min_le_left _ _
          constructor <;> linarith
      · rw [if_neg hd]
        by_cases he2 : ctx.maturity_range.2 = w.maturity_threshold
        · rw [if_pos he2]
          norm_num
        · rw [if_neg he2]
          have hdlt : w.maturity_threshold < t.maturity_days := lt_of_not_le hd
          have hden : (w.maturity_threshold : ℚ) < ((ctx.maturity_range.2 : ℤ) : ℚ) := by
            have hz : w.maturity_threshold < ctx.maturity_range.2 :=
              lt_of_lt_of_le hdlt h2
            exact_mod_cast hz
          have hnum0 : ((t.maturity_days : ℤ) : ℚ) ≤ ((ctx.maturity_range.2 : ℤ) : ℚ) := by
            exact_mod_cast h2
          have hnum1 : (w.maturity_threshold : ℚ) ≤ ((t.maturity_days : ℤ) : ℚ) := by
            exact_mod_cast le_of_lt hdlt
          have hq0 : 0 ≤ ((ctx.maturity_range.2 - t.maturity_days : ℤ) : ℚ)
              / ((ctx.maturity_range.2 - w.maturity_threshold : ℤ) : ℚ) := by
            apply div_nonneg
            · push_cast
              linarith
            · push_cast
              linarith
          have hq1 : ((ctx.maturity_range.2 - t.maturity_days : ℤ) : ℚ)
              / ((ctx.maturity_range.2 - w.maturity_threshold : ℤ) : ℚ) ≤ 1 := by
            rw [div_le_one (by push_cast; linarith)]
            push_cast
            linarith
          have hmx0 : 0 ≤ max 0 (((ctx.maturity_range.2 - t.maturity_days : ℤ) : ℚ)
              / ((ctx.maturity_range.2 - w.maturity_threshold : ℤ) : ℚ)) := le_max_left _ _
          have hmx1 : max 0 (((ctx.maturity_range.2 - t.maturity_days : ℤ) : ℚ)
              / ((ctx.maturity_range.2 - w.maturity_threshold : ℤ) : ℚ)) ≤ 1 :=
            max_le zero_le_one hq1
          constructor <;> linarith

/-- The acceptor score always lies in [0,1] (the class is clamped). -/
theorem score_acceptor_bounds (t : Ticket) (w : WeightConfig) :
    0 ≤ score_acceptor t w ∧ score_acceptor t w ≤ 1 := by
  simp only [score_acceptor]
  have h1 : (1:ℤ) ≤ max w.acceptor_class_count 1 := le_max_right _ _
  have hc1 : (1:ℤ) ≤ max 1 (min t.acceptor_class (max w.acceptor_class_count 1)) :=
    le_max_left _ _
  have hc2 : max 1 (min t.acceptor_class (max w.acceptor_class_count 1))
      ≤ max w.acceptor_class_count 1 := max_le h1 (min_le_right _ _)
  have hq : (0:ℚ) < ((max w.acceptor_class_count 1 : ℤ) : ℚ) := by
    exact_mod_cast lt_of_lt_of_le one_pos h1
  have hc1q : (1:ℚ) ≤ ((max 1 (min t.acceptor_class (max w.acceptor_class_count 1)) : ℤ) : ℚ) := by
    exact_mod_cast hc1
  have hc2q : ((max 1 (min t.acceptor_class (max w.acceptor_class_count 1)) : ℤ) : ℚ)
      ≤ ((max w.acceptor_class_count 1 : ℤ) : ℚ) := by
    exact_mod_cast hc2
  cases w.acceptor_strategy with
  | GOOD_FIRST =>
    dsimp only
    constructor
    · apply div_nonneg _ (le_of_lt hq)
      push_cast
      push_cast at hc2q
      linarith
    · rw [div_le_one hq]
      push_cast
      push_cast at hc1q
      linarith
  | BAD_FIRST =>
    dsimp only
    constructor
    · exact div_nonneg (by linarith) (le_of_lt hq)
    · rw [div_le_one hq]
      linarith

/-- The OPTIMIZE_INVENTORY score lies in [0,1] whenever the configured label
ratios are nonnegative. -/
theorem score_optimize_inventory_bounds (t : Ticket) (config : AllocationConfig)
    (ctx : ScoringContext)
    (hL : 0 ≤ config.amount_label_config.large_ratio)
    (hM : 0 ≤ config.amount_label_config.medium_ratio)
    (hS : 0 ≤ config.amount_label_config.small_ratio) :
    0 ≤ score_optimize_inventory t config ctx
      ∧ score_optimize_inventory t config ctx ≤ 1 := by
  have hraw : ∀ label, 0 ≤ raw_weight config ctx label := by
    intro label
    simp only [raw_weight]
    by_cases h : ctx.inventory_distribution label > expected_ratio config label
    · rw [if_pos h]
      have he : 0 ≤ expected_ratio config label := by
        cases label
        · exact hL
        · exact hM
        · exact hS
      linarith
    · rw [if_neg h]
  simp only [score_optimize_inventory]
  by_cases hz : raw_weight config ctx AmountLabel.LARGE
      + raw_weight config ctx AmountLabel.MEDIUM
      + raw_weight config ctx AmountLabel.SMALL = 0
  · rw [if_pos hz]
    norm_num
  · rw [if_neg hz]
    have hge : 0 ≤ raw_weight config ctx AmountLabel.LARGE
        + raw_weight config ctx AmountLabel.MEDIUM
        + raw_weight config ctx AmountLabel.SMALL :=
      add_nonneg (add_nonneg (hraw _) (hraw _)) (hraw _)
    have hpos : 0 < raw_weight config ctx AmountLabel.LARGE
        + raw_weight config ctx AmountLabel.MEDIUM
        + raw_weight config ctx AmountLabel.SMALL :=
      lt_of_le_of_ne hge (Ne.symm hz)
    constructor
    · exact div_nonneg (hraw _) (le_of_lt hpos)
    · rw [div_le_one hpos]
      cases t.amount_label
      · linarith [hraw AmountLabel.MEDIUM, hraw AmountLabel.SMALL]
      · linarith [hraw AmountLabel.LARGE, hraw AmountLabel.SMALL]
      · linarith [hraw AmountLabel.LARGE, hraw AmountLabel.MEDIUM]

/-- The LARGE_FIRST score lies in [0,1] for a context whose recorded range
for the bill's label contains the bill's amount and a PRNG draw in [0,1). -/
theorem score_large_first_bounds (t : Ticket) (config : AllocationConfig)
    (ctx : ScoringContext)
    (hrange : ∀ lo hi, ctx.amount_range_by_label t.amount_label = some (lo, hi) →
      lo ≤ t.amount ∧ t.amount ≤ hi)
    (hrand0 : 0 ≤ ctx.randomness) (hrand1 : ctx.randomness < 1) :
    0 ≤ score_large_first t config ctx ∧ score_large_first t config ctx ≤ 1 := by
  simp only [score_large_first]
  cases hlab : t.amount_label with
  | LARGE =>
    rw [hlab] at hrange
    dsimp only
    by_cases hsub : config.weight_config.amount_sub_strategy = some AmountSubStrategy.SORTED
    · rw [if_pos hsub]
      cases hopt : ctx.amount_range_by_label AmountLabel.LARGE with
      | none =>
        simp only [hopt, Option.getD]
        rw [if_neg (lt_irrefl t.amount)]
        norm_num
      | some p =>
        obtain ⟨lo, hi⟩ := p
        have hb := hrange lo hi hopt
        simp only [hopt, Option.getD]
        by_cases hlt : hi > lo
        · rw [if_pos hlt]
          have hnorm0 : 0 ≤ (t.amount - lo) / (hi - lo) :=
            div_nonneg (by linarith [hb.1]) (by linarith)
          have hnorm1 : (t.amount - lo) / (hi - lo) ≤ 1 := by
            rw [div_le_one (by linarith)]
            linarith [hb.2]
          constructor <;> linarith
        · rw [if_neg hlt]
          norm_num
    · rw [if_neg hsub]
      constructor <;> linarith
  | MEDIUM =>
    dsimp only
    norm_num
  | SMALL =>
    dsimp only
    norm_num

/-- The SMALL_FIRST score lies in [0,1] under the same context consistency. -/
theorem score_small_first_bounds (t : Ticket) (config : AllocationConfig)
    (ctx : ScoringContext)
    (hrange : ∀ lo hi, ctx.amount_range_by_label t.amount_label = some (lo, hi) →
      lo ≤ t.amount ∧ t.amount ≤ hi)
    (hrand0 : 0 ≤ ctx.randomness) (hrand1 : ctx.randomness < 1) :
    0 ≤ score_small_first t config ctx ∧ score_small_first t config ctx ≤ 1 := by
  simp only [score_small_first]
  cases hlab : t.amount_label with
  | SMALL =>
    rw [hlab] at hrange
    dsimp only
    by_cases hsub : config.weight_config.amount_sub_strategy = some AmountSubStrategy.SORTED
    · rw [if_pos hsub]
      cases hopt : ctx.amount_range_by_label AmountLabel.SMALL with
      | none =>
        simp only [hopt, Option.getD]
        rw [if_neg (lt_irrefl t.amount)]
        norm_num
      | some p =>
        obtain ⟨lo, hi⟩ := p
        have hb := hrange lo hi hopt
        simp only [hopt, Option.getD]
        by_cases hlt : hi > lo
        · rw [if_pos hlt]
          have hnorm0 : 0 ≤ (hi - t.amount) / (hi - lo) :=
            div_nonneg (by linarith [hb.2]) (by linarith)
          have hnorm1 : (hi - t.amount) / (hi - lo) ≤ 1 := by
            rw [div_le_one (by linarith)]
            linarith [hb.1]
          constructor <;> linarith
        · rw [if_neg hlt]
          norm_num
    · rw [if_neg hsub]
      constructor <;> linarith
  | MEDIUM =>
    dsimp only
    norm_num
  | LARGE =>
    dsimp only
    norm_num

/-- The amount score lies in [0,1] for every strategy, under context
consistency and nonnegative label ratios. -/
theorem score_amount_bounds (t : Ticket) (order : PaymentOrder)
    (config : AllocationConfig) (ctx : ScoringContext)
    (hrange : ∀ lo hi, ctx.amount_range_by_label t.amount_label = some (lo, hi) →
      lo ≤ t.amount ∧ t.amount ≤ hi)
    (hrand0 : 0 ≤ ctx.randomness) (hrand1 : ctx.randomness < 1)
    (hL : 0 ≤ config.amount_label_config.large_ratio)
    (hM : 0 ≤ config.amount_label_config.medium_ratio)
    (hS : 0 ≤ config.amount_label_config.small_ratio) :
    0 ≤ score_amount t order config ctx ∧ score_amount t order config ctx ≤ 1 := by
  simp only [score_amount]
  cases config.weight_config.amount_strategy with
  | LARGE_FIRST => exact score_large_first_bounds t config ctx hrange hrand0 hrand1
  | SMALL_FIRST => exact score_small_first_bounds t config ctx hrange hrand0 hrand1
  | RANDOM => exact ⟨hrand0, le_of_lt hrand1⟩
  | LESS_THAN_ORDER =>
    dsimp only
    split <;> norm_num
  | GREATER_THAN_ORDER =>
    dsimp only
    split <;> norm_num
  | OPTIMIZE_INVENTORY => exact score_optimize_inventory_bounds t config ctx hL hM hS

/-- The organization score is 0 or 1, hence in [0,1]. -/
theorem score_organization_bounds (t : Ticket) (order : PaymentOrder) (w : WeightConfig) :
    0 ≤ score_organization t order w ∧ score_organization t order w ≤ 1 := by
  simp only [score_organization]
  cases w.organization_strategy <;> dsimp only <;> split <;> norm_num

/-- C3, corrected: for weights each in [0,1], nonnegative label target
ratios, and a scoring context consistent with the bill (its maturity inside
ctx.maturity_range, its amount inside its label's recorded range, the PRNG
draw in [0,1)), the four dimension scores each lie in [0,1] and the total
lies in [0, w_maturity + w_acceptor + w_amount + w_organization]; it is
bounded by 1 only when the weights sum to at most 1, not in general. -/
theorem C3_score_bounds (t : Ticket) (order : PaymentOrder)
    (config : AllocationConfig) (ctx : ScoringContext)
    (hw1 : 0 ≤ config.weight_config.w_maturity)
    (hw2 : config.weight_config.w_maturity ≤ 1)
    (hw3 : 0 ≤ config.weight_config.w_acceptor)
    (hw4 : config.weight_config.w_acceptor ≤ 1)
    (hw5 : 0 ≤ config.weight_config.w_amount)
    (hw6 : config.weight_config.w_amount ≤ 1)
    (hw7 : 0 ≤ config.weight_config.w_organization)
    (hw8 : config.weight_config.w_organization ≤ 1)
    (hL : 0 ≤ config.amount_label_config.large_ratio)
    (hM : 0 ≤ config.amount_label_config.medium_ratio)
    (hS : 0 ≤ config.amount_label_config.small_ratio)
    (hm1 : ctx.maturity_range.1 ≤ t.maturity_days)
    (hm2 : t.maturity_days ≤ ctx.maturity_range.2)
    (hrange : ∀ lo hi, ctx.amount_range_by_label t.amount_label = some (lo, hi) →
      lo ≤ t.amount ∧ t.amount ≤ hi)
    (hrand0 : 0 ≤ ctx.randomness) (hrand1 : ctx.randomness < 1) :
    (0 ≤ (score_ticket t order config ctx).maturity_score
      ∧ (score_ticket t order config ctx).maturity_score ≤ 1)
    ∧ (0 ≤ (score_ticket t order config ctx).acceptor_score
      ∧ (score_ticket t order config ctx).acceptor_score ≤ 1)
    ∧ (0 ≤ (score_ticket t order config ctx).amount_score
      ∧ (score_ticket t order config ctx).amount_score ≤ 1)
    ∧ (0 ≤ (score_ticket t order config ctx).organization_score
      ∧ (score_ticket t order config ctx).organization_score ≤ 1)
    ∧ (0 ≤ (score_ticket t order config ctx).total_score
      ∧ (score_ticket t order config ctx).total_score
          ≤ config.weight_config.w_maturity + config.weight_config.w_acceptor
            + config.weight_config.w_amount + config.weight_config.w_organization) := by
  have hmat := score_maturity_bounds t config.weight_config ctx hm1 hm2
  have hacc := score_acceptor_bounds t config.weight_config
  have hamt := score_amount_bounds t order config ctx hrange hrand0 hrand1 hL hM hS
  have horg := score_organization_bounds t order config.weight_config
  refine ⟨hmat, hacc, hamt, horg, ?_, ?_⟩
  · show 0 ≤ config.weight_config.w_maturity * score_maturity t config.weight_config ctx
      + config.weight_config.w_acceptor * score_acceptor t config.weight_config
      + config.weight_config.w_amount * score_amount t order config ctx
      + config.weight_config.w_organization * score_organization t order config.weight_config
    have t1 := mul_nonneg hw1 hmat.1
    have t2 := mul_nonneg hw3 hacc.1
    have t3 := mul_nonneg hw5 hamt.1
    have t4 := mul_nonneg hw7 horg.1
    linarith
  · show config.weight_config.w_maturity * score_maturity t config.weight_config ctx
      + config.weight_config.w_acceptor * score_acceptor t config.weight_config
      + config.weight_config.w_amount * score_amount t order config ctx
      + config.weight_config.w_organization * score_organization t order config.weight_config
      ≤ _
    have t1 := mul_le_of_le_one_right hw1 hmat.2
    have t2 := mul_le_of_le_one_right hw3 hacc.2
    have t3 := mul_le_of_le_one_right hw5 hamt.2
    have t4 := mul_le_of_le_one_right hw7 horg.2
    linarith

/-- Witness for the corrected C3 at the concrete C3 scenario (all weights 1,
so the total bound is 4, attained here). -/
theorem C3_witness :
    (0 ≤ (score_ticket tC3 ordC3 cfgC3 ctxC3).maturity_score
      ∧ (score_ticket tC3 ordC3 cfgC3 ctxC3).maturity_score ≤ 1)
    ∧ (0 ≤ (score_ticket tC3 ordC3 cfgC3 ctxC3).acceptor_score
      ∧ (score_ticket tC3 ordC3 cfgC3 ctxC3).acceptor_score ≤ 1)
    ∧ (0 ≤ (score_ticket tC3 ordC3 cfgC3 ctxC3).amount_score
      ∧ (score_ticket tC3 ordC3 cfgC3 ctxC3).amount_score ≤ 1)
    ∧ (0 ≤ (score_ticket tC3 ordC3 cfgC3 ctxC3).organization_score
      ∧ (score_ticket tC3 ordC3 cfgC3 ctxC3).organization_score ≤ 1)
    ∧ (0 ≤ (score_ticket tC3 ordC3 cfgC3 ctxC3).total_score
      ∧ (score_ticket tC3 ordC3 cfgC3 ctxC3).total_score
          ≤ cfgC3.weight_config.w_maturity + cfgC3.weight_config.w_acceptor
            + cfgC3.weight_config.w_amount + cfgC3.weight_config.w_organization) :=
  C3_score_bounds tC3 ordC3 cfgC3 ctxC3
    (by norm_num [cfgC3, cfgBase, wcfgBase]) (by norm_num [cfgC3, cfgBase, wcfgBase])
    (by norm_num [cfgC3, cfgBase, wcfgBase]) (by norm_num [cfgC3, cfgBase, wcfgBase])
    (by norm_num [cfgC3, cfgBase, wcfgBase]) (by norm_num [cfgC3, cfgBase, wcfgBase])
    (by norm_num [cfgC3, cfgBase, wcfgBase]) (by norm_num [cfgC3, cfgBase, wcfgBase])
    (by norm_num [cfgC3, cfgBase]) (by norm_num [cfgC3, cfgBase]) (by norm_num [cfgC3, cfgBase])
    (by norm_num [ctxC3, tC3]) (by norm_num [ctxC3, tC3])
    (by intro lo hi h; exact Option.noConfusion h)
    (by norm_num [ctxC3]) (by norm_num [ctxC3])
